import Mathlib

/-!
# Donor ticker (`src/app/utils/donor-scroll.js`)

A shallow embedding of the `DonorScroll` class: the donor feed builder
(`getDonors`), the start-up sequence (`constructor`, `init` and the methods it
calls), the event handlers installed by `addAccessibilityControls` and
`addHoverAndFocusControls`, and the interval callback of `startScrolling`.

Pixel quantities are integers (`offsetWidth` is an integer in the DOM), the
document is a record of the lookups the class performs, and `localStorage` is
an association list of keys and values.  The library call
`shuffleSeed.shuffle` is a function argument.
-/

namespace DonorScroll

/-! ## Donor feed builder -/

/-- `getPageId()` (line 94): the constant page identifier. -/
def getPageId : Nat := 1

/-- `getSeed()` (line 88): day of the month plus the page identifier.  The
calendar day `now.getDate()` is an input. -/
def getSeed (day : Nat) : Nat := day + getPageId

/-- The `while` loop of `getDonors` (lines 81-83).  `donors` is the running
list, `thisDonors` is `this.donors`.  One unit of fuel is spent per test of the
loop condition; `none` means the fuel ran out before the loop ended. -/
def getDonorsLoop {α : Type} (shuffle : List α → Nat → List α) (thisDonors : List α)
    (seed total : Nat) : Nat → List α → Option (List α)
  | 0, _ => none
  | fuel + 1, donors =>
    if donors.length < total then
      getDonorsLoop shuffle thisDonors seed total fuel (donors ++ shuffle thisDonors seed)
    else
      some donors

/-- `getDonors(total)` (lines 77-86): pad by shuffled copies, shuffle the
accumulated list once more and keep the first `total` entries. -/
def getDonors {α : Type} (shuffle : List α → Nat → List α) (thisDonors : List α)
    (day total fuel : Nat) : Option (List α) :=
  let seed := getSeed day
  (getDonorsLoop shuffle thisDonors seed total fuel thisDonors).map
    (fun donors => (shuffle donors seed).take total)

/-! ## Host page, measurements, storage -/

/-- The host page as the class observes it at construction. -/
structure Page where
  /-- Whether `document.querySelector(".donor-list")` finds an element (line 6). -/
  donorList : Bool
  /-- The `innerText` of each `.donor-list li`, in document order (lines 17-19). -/
  donorItems : List String
  /-- Whether `document.querySelector("#donor-ticker")` finds an element. -/
  donorTicker : Bool
  /-- Whether the host markup already holds a `.ticker` inside `#donor-ticker`. -/
  tickerStrip : Bool
  /-- Whether `document.readyState === "loading"` when `init` runs (line 33). -/
  loading : Bool
deriving DecidableEq, Repr

/-- Values the class obtains from outside itself during start-up. -/
structure Env where
  /-- The list `this.getDonors()` returned (lines 36 and 46). -/
  display : List String
  /-- The value `tickerContainer.offsetWidth` (line 152). -/
  containerWidth : Int
  /-- The `offsetWidth` of each child of the strip, in order (lines 153-156). -/
  itemWidths : List Int
  /-- The value `pauseButton.offsetWidth` right after insertion (line 230). -/
  buttonWidth : Int
deriving DecidableEq, Repr

/-- The browser's `localStorage`: the most recent entry for a key comes first. -/
abbrev Storage := List (String × String)

/-- The variables captured by the interval callback of `startScrolling`
(lines 150-156). -/
structure ScrollState where
  currentScroll : Int
  containerWidth : Int
  contentWidth : Int
deriving DecidableEq, Repr

/-- The toggle button created by `addAccessibilityControls`. -/
structure Button where
  innerText : String
  ariaLabel : String
  /-- The `style.minWidth` in pixels; `none` while no min-width is set. -/
  minWidth : Option Int
deriving DecidableEq, Repr

/-- The instance fields, the part of the document the class reads and writes,
and the storage. -/
structure St where
  donors : List String
  isPaused : Bool
  scrollSpeed : Int
  /-- The field `this.scrollInterval`: `none` is `null`; `some c` is an installed
  timer whose callback has captured `c`. -/
  scrollInterval : Option ScrollState
  prefersReducedMotion : Bool
  /-- The field `this.wasPausedBeforeFocus`; `false` also stands for the unset
  field, which is falsy at line 301. -/
  wasPausedBeforeFocus : Bool
  /-- Whether the `DOMContentLoaded` listener of line 34 is waiting. -/
  domContentLoadedListener : Bool
  /-- Whether the four listeners of lines 278-305 are installed. -/
  hoverFocusListeners : Bool
  /-- Whether `#donor-ticker` exists. -/
  donorTicker : Bool
  /-- Whether `#ticker-container` is in the document. -/
  tickerContainer : Bool
  /-- Whether `#donor-ticker` holds a `.ticker` element. -/
  strip : Bool
  /-- The text of the `.ticker__item` children of the strip. -/
  items : List String
  role : Option String
  tabindex : Option String
  dataPlaying : Option String
  dataHovered : Option String
  dataFocused : Option String
  /-- The strip's `style.width` in pixels. -/
  stripWidth : Option Int
  /-- The strip's `translateX` in pixels. -/
  stripTransform : Option Int
  button : Option Button
  /-- How many `style` elements `addStyles` has appended. -/
  styleSheets : Nat
  /-- Messages passed to `console.error`, most recent first. -/
  consoleErrors : List String
  localStorage : Storage
  /-- Every `setLocalStorage(key, value)` call so far, most recent first. -/
  writes : List (String × String)
deriving DecidableEq, Repr

/-- `setLocalStorage(key, value)` (line 98). -/
def setLocalStorage (s : St) (key value : String) : St :=
  { s with localStorage := (key, value) :: s.localStorage, writes := (key, value) :: s.writes }

/-- `getLocalStorage(key)` (line 102): `none` is `null`. -/
def getLocalStorage (s : St) (key : String) : Option String :=
  s.localStorage.lookup key

/-! ## The built-in `parseInt(value, 10)` and JavaScript numbers -/

/-- The values `parseInt` can return: `NaN`, a finite number (always an integer
here), or an infinity. -/
inductive JsNumber where
  | nan
  | finite (value : Int)
  | infinity (negative : Bool)
deriving DecidableEq, Repr

/-- White space and line terminators skipped by `parseInt` (ECMAScript
`StrWhiteSpaceChar`). -/
def isStrWhiteSpaceChar (c : Char) : Bool :=
  let n := c.toNat
  n == 0x9 || n == 0xA || n == 0xB || n == 0xC || n == 0xD || n == 0x20 || n == 0xA0 ||
  n == 0x1680 || (0x2000 ≤ n && n ≤ 0x200A) || n == 0x2028 || n == 0x2029 ||
  n == 0x202F || n == 0x205F || n == 0x3000 || n == 0xFEFF

/-- The value of a string of decimal digits. -/
def digitsValue (Z : List Char) : Nat :=
  Z.foldl (fun n c => 10 * n + (c.toNat - 48)) 0

/-- How many times `n` must be halved to fall below `2 ^ 53`, searching at most
`fuel` halvings. -/
def shiftOf : Nat → Nat → Nat
  | 0, _ => 0
  | fuel + 1, n => if n < 2 ^ 53 then 0 else shiftOf fuel (n / 2) + 1

/-- The double nearest to the natural number `n` (IEEE 754 binary64, round to
nearest, ties to even), as an exact integer; `none` is `Infinity`.  Integers
below `2 ^ 53` are kept exactly; larger ones keep 53 significant bits.  Beyond
20 significant digits ECMAScript lets an engine approximate; the value here is
the correctly rounded one. -/
def toDouble (n : Nat) : Option Nat :=
  if n < 2 ^ 53 then some n
  else if 2 ^ 1024 ≤ n then none
  else
    let e := shiftOf 1024 n
    let q := n / 2 ^ e
    let r := n % 2 ^ e
    let half := 2 ^ (e - 1)
    let q := if half < r ∨ (r = half ∧ q % 2 = 1) then q + 1 else q
    if 2 ^ 1024 ≤ q * 2 ^ e then none else some (q * 2 ^ e)

/-- `parseInt(value, 10)`: `null` is read as the text "null"; leading white
space is skipped, one sign is accepted, and the longest run of decimal digits
is read and converted to a double. -/
def parseInt (value : Option String) : JsNumber :=
  let inputString := match value with
    | none => "null"
    | some v => v
  let S := inputString.toList.dropWhile isStrWhiteSpaceChar
  let negative : Bool := match S with
    | '-' :: _ => true
    | _ => false
  let S := match S with
    | '-' :: rest => rest
    | '+' :: rest => rest
    | _ => S
  let Z := S.takeWhile Char.isDigit
  if Z.isEmpty then .nan
  else
    match toDouble (digitsValue Z) with
    | some v => .finite (if negative then -(v : Int) else (v : Int))
    | none => .infinity negative

/-! ## Start-up methods -/

/-- The donors used when the page lists none (lines 22-26). -/
def defaultDonors : List String :=
  ["Anonymous chipped in $15", "Marty F. chipped in $50", "Cynthia C. chipped in $3"]

/-- `createTickerContainer()` (lines 56-75).  The new `div` enters the document
only when `#donor-ticker` exists. -/
def createTickerContainer (s : St) : St :=
  if s.donorTicker then
    { s with tickerContainer := true, role := some "marquee" }
  else
    s

/-- `displayDonations(donors)` (lines 180-191). -/
def displayDonations (s : St) (donors : List String) : St :=
  if !s.donorTicker then
    { s with consoleErrors := "Ticker element not found" :: s.consoleErrors }
  else
    { s with strip := true, items := donors }

/-- `addStyles()` (lines 110-143). -/
def addStyles (s : St) : St :=
  { s with styleSheets := s.styleSheets + 1 }

/-- The constant `FALLBACK_MIN_WIDTH` (line 208). -/
def FALLBACK_MIN_WIDTH : Int := 75

/-- Lines 220-224: the `style.minWidth` of the new button after the test of
line 220.  `savedMinWidth` is the result of `parseInt`; `NaN` and `0` are
falsy.  For `Infinity` line 221 assigns the text "Infinitypx", which is not a
length, so the assignment is dropped and the style stays unset. -/
def initialMinWidth (savedMinWidth : JsNumber) : Option Int :=
  match savedMinWidth with
  | .nan => some FALLBACK_MIN_WIDTH
  | .finite w => if w ≠ 0 ∧ w ≥ FALLBACK_MIN_WIDTH then some w else some FALLBACK_MIN_WIDTH
  | .infinity negative => if negative then some FALLBACK_MIN_WIDTH else none

/-- `addAccessibilityControls()` up to the installation of the click handler
(lines 193-236).  `buttonWidth` is the measured `pauseButton.offsetWidth`. -/
def addAccessibilityControls (s : St) (buttonWidth : Int) : St :=
  if !s.tickerContainer then s
  else
    let savedState := getLocalStorage s "tickerState"
    let savedMinWidth := parseInt (getLocalStorage s "buttonMinWidth")
    let s := { s with isPaused := decide (savedState = some "paused") }
    let pauseButton : Button :=
      { innerText := if s.isPaused then "Play" else "Pause"
        ariaLabel := if s.isPaused then "Play scrolling" else "Pause scrolling"
        minWidth := initialMinWidth savedMinWidth }
    if buttonWidth > FALLBACK_MIN_WIDTH then
      setLocalStorage
        { s with button := some { pauseButton with minWidth := some buttonWidth } }
        "buttonMinWidth" (toString buttonWidth)
    else
      { s with button := some pauseButton }

/-- The click handler of the button (lines 239-267).  `newButtonWidth` is the
`pauseButton.offsetWidth` measured at line 250. -/
def onclick (s : St) (pauseButton : Button) (newButtonWidth : Int) : St :=
  let s := { s with isPaused := !s.isPaused }
  let pauseButton :=
    { pauseButton with
      innerText := if s.isPaused then "Play" else "Pause"
      ariaLabel := if s.isPaused then "Play scrolling" else "Pause scrolling" }
  let pauseButton :=
    if newButtonWidth > FALLBACK_MIN_WIDTH then
      { pauseButton with minWidth := some newButtonWidth }
    else pauseButton
  let s :=
    if newButtonWidth > FALLBACK_MIN_WIDTH then
      setLocalStorage s "buttonMinWidth" (toString newButtonWidth)
    else s
  let s := setLocalStorage s "tickerState" (if s.isPaused then "paused" else "playing")
  let s := { s with button := some pauseButton }
  if s.donorTicker then
    { s with dataPlaying := some (if s.isPaused then "false" else "true") }
  else
    s

/-- `addHoverAndFocusControls()` (lines 270-306): the listeners themselves are
`mouseenter`, `mouseleave`, `focusin` and `focusout` below. -/
def addHoverAndFocusControls (s : St) : St :=
  if !s.donorTicker then s
  else { s with tabindex := some "0", hoverFocusListeners := true }

/-- The `mouseenter` listener (lines 278-282). -/
def mouseenter (s : St) : St :=
  { s with isPaused := true, dataHovered := some "true", dataPlaying := some "false" }

/-- The `mouseleave` listener (lines 284-288). -/
def mouseleave (s : St) : St :=
  { s with isPaused := false, dataHovered := some "false", dataPlaying := some "true" }

/-- The `focusin` listener (lines 291-296). -/
def focusin (s : St) : St :=
  { s with
    wasPausedBeforeFocus := s.isPaused
    isPaused := true
    dataFocused := some "true"
    dataPlaying := some "false" }

/-- The `focusout` listener (lines 299-305). -/
def focusout (s : St) : St :=
  let s := { s with dataFocused := some "false" }
  if !s.wasPausedBeforeFocus then
    { s with isPaused := false, dataPlaying := some "true" }
  else
    s

/-- `startScrolling()` (lines 145-178).  Line 147 dereferences the result of the
`#donor-ticker` lookup, which throws a `TypeError` when the lookup found
nothing.  A timer installed earlier is cleared at line 160 and the field is
overwritten at line 167. -/
def startScrolling (s : St) (env : Env) : Except String St :=
  if !s.donorTicker then
    .error "TypeError: tickerContainer is null"
  else if !s.strip then
    .ok s
  else
    let currentScroll : Int := 0
    let containerWidth := env.containerWidth
    let contentWidth := env.itemWidths.foldl (fun total item => total + item) 0
    let s := { s with stripWidth := some (max contentWidth containerWidth) }
    let savedState := getLocalStorage s "tickerState"
    let s := { s with isPaused := decide (savedState = some "paused") }
    let s := { s with dataPlaying := some (if s.isPaused then "false" else "true") }
    let c : ScrollState :=
      { currentScroll := currentScroll
        containerWidth := containerWidth
        contentWidth := contentWidth }
    .ok { s with scrollInterval := some c }

/-- The body of the interval callback (lines 168-176) on the captured
variables: the new value of the closure. -/
def tick (isPaused : Bool) (scrollSpeed : Int) (c : ScrollState) : ScrollState :=
  if !isPaused then
    let currentScroll := c.currentScroll - scrollSpeed
    let currentScroll :=
      if (currentScroll.natAbs : Int) ≥ c.contentWidth then c.containerWidth
      else currentScroll
    { c with currentScroll := currentScroll }
  else
    c

/-- The interval callback of `startScrolling` (lines 167-177) for the timer
whose closure is `c`. -/
def intervalCallback (s : St) (c : ScrollState) : St :=
  if !s.isPaused then
    let c := tick s.isPaused s.scrollSpeed c
    { s with scrollInterval := some c, stripTransform := some c.currentScroll }
  else
    s

/-- The statements shared by both branches of `init` (lines 35-42 and 45-52). -/
def startupSequence (s : St) (env : Env) : Except String St :=
  let s := createTickerContainer s
  let s := displayDonations s env.display
  let s := addStyles s
  let s := addAccessibilityControls s env.buttonWidth
  let s := addHoverAndFocusControls s
  if !s.prefersReducedMotion then
    startScrolling s env
  else
    .ok s

/-- `init()` (lines 32-54): while the document is loading the sequence is
deferred to the `DOMContentLoaded` listener. -/
def init (s : St) (loading : Bool) (env : Env) : Except String St :=
  if loading then
    .ok { s with domContentLoadedListener := true }
  else
    startupSequence s env

/-- The document and storage before the constructor has run; instance fields
that are not yet assigned hold placeholders. -/
def blank (page : Page) (store : Storage) : St :=
  { donors := []
    isPaused := false
    scrollSpeed := 0
    scrollInterval := none
    prefersReducedMotion := false
    wasPausedBeforeFocus := false
    domContentLoadedListener := false
    hoverFocusListeners := false
    donorTicker := page.donorTicker
    tickerContainer := false
    strip := page.donorTicker && page.tickerStrip
    items := []
    role := none
    tabindex := none
    dataPlaying := none
    dataHovered := none
    dataFocused := none
    stripWidth := none
    stripTransform := none
    button := none
    styleSheets := 0
    consoleErrors := []
    localStorage := store
    writes := [] }

/-- The field assignments of the constructor (lines 11-27).
`prefersReducedMotion` is the value of the media query of line 15. -/
def assignFields (page : Page) (store : Storage) (prefersReducedMotion : Bool) : St :=
  let s := blank page store
  let s :=
    { s with
      donors := []
      isPaused := false
      scrollSpeed := 1
      scrollInterval := none
      prefersReducedMotion := prefersReducedMotion }
  let donorList := if page.donorList then page.donorItems else []
  if donorList.length > 0 then { s with donors := s.donors ++ donorList }
  else { s with donors := defaultDonors }

/-- The constructor (lines 4-30): it returns at once when the page has neither
a `.donor-list` nor a `#donor-ticker`, and otherwise assigns the fields and
calls `init`. -/
def new (page : Page) (store : Storage) (prefersReducedMotion : Bool) (env : Env) :
    Except String St :=
  if !page.donorList && !page.donorTicker then
    .ok (blank page store)
  else
    init (assignFields page store prefersReducedMotion) page.loading env

/-! ## Events after construction -/

/-- What can happen to an instance once the constructor has returned. -/
inductive Event where
  /-- The document fires `DOMContentLoaded`. -/
  | domContentLoaded
  /-- A click on the toggle button; the argument is the width measured at
  line 250. -/
  | click (newButtonWidth : Int)
  | mouseenter
  | mouseleave
  | focusin
  | focusout
  /-- The 16 ms interval elapses. -/
  | timer
deriving DecidableEq, Repr

/-- One event: the listener runs when it is installed, and nothing happens
otherwise. -/
def step (env : Env) (s : St) : Event → Except String St
  | .domContentLoaded =>
    if s.domContentLoadedListener then
      startupSequence { s with domContentLoadedListener := false } env
    else
      .ok s
  | .click newButtonWidth =>
    match s.button with
    | some pauseButton => .ok (onclick s pauseButton newButtonWidth)
    | none => .ok s
  | .mouseenter => .ok (if s.hoverFocusListeners then mouseenter s else s)
  | .mouseleave => .ok (if s.hoverFocusListeners then mouseleave s else s)
  | .focusin => .ok (if s.hoverFocusListeners then focusin s else s)
  | .focusout => .ok (if s.hoverFocusListeners then focusout s else s)
  | .timer =>
    match s.scrollInterval with
    | some c => .ok (intervalCallback s c)
    | none => .ok s

/-- A sequence of events, stopping at the first one whose listener throws. -/
def run (env : Env) (s : St) : List Event → Except String St
  | [] => .ok s
  | e :: es =>
    match step env s e with
    | .ok s1 => run env s1 es
    | .error err => .error err

/-- Construction followed by the start-up sequence: in the loading branch the
sequence runs when `DOMContentLoaded` fires. -/
def startup (page : Page) (store : Storage) (prefersReducedMotion : Bool) (env : Env) :
    Except String St :=
  match new page store prefersReducedMotion env with
  | .ok s => step env s .domContentLoaded
  | .error err => .error err

/-- Construction followed by a sequence of events. -/
def lifecycle (page : Page) (store : Storage) (prefersReducedMotion : Bool) (env : Env)
    (events : List Event) : Except String St :=
  match new page store prefersReducedMotion env with
  | .ok s => run env s events
  | .error err => .error err

/-! ## A sample page -/

/-- A page with one listed donor and a `#donor-ticker` element, already loaded. -/
def samplePage : Page :=
  { donorList := true
    donorItems := ["Dana chipped in $5"]
    donorTicker := true
    tickerStrip := false
    loading := false }

/-- The same page without the `#donor-ticker` element. -/
def pageWithoutTicker : Page :=
  { samplePage with donorTicker := false }

/-- Fifty rendered entries of 64 px each in a 1280 px container, and a button
measured at 90 px. -/
def sampleEnv : Env :=
  { display := List.replicate 50 "Dana chipped in $5"
    containerWidth := 1280
    itemWidths := List.replicate 50 64
    buttonWidth := 90 }

/-- The same layout in a 3840 px container, wider than the 3200 px of content. -/
def wideEnv : Env :=
  { sampleEnv with containerWidth := 3840 }

/-- The state in which start-up leaves `samplePage` with empty storage and
reduced motion off. -/
def sampleState : St :=
  { donors := ["Dana chipped in $5"]
    isPaused := false
    scrollSpeed := 1
    scrollInterval := some { currentScroll := 0, containerWidth := 1280, contentWidth := 3200 }
    prefersReducedMotion := false
    wasPausedBeforeFocus := false
    domContentLoadedListener := false
    hoverFocusListeners := true
    donorTicker := true
    tickerContainer := true
    strip := true
    items := List.replicate 50 "Dana chipped in $5"
    role := some "marquee"
    tabindex := some "0"
    dataPlaying := some "true"
    dataHovered := none
    dataFocused := none
    stripWidth := some 3200
    stripTransform := none
    button :=
      some { innerText := "Pause", ariaLabel := "Pause scrolling", minWidth := some 90 }
    styleSheets := 1
    consoleErrors := []
    localStorage := [("buttonMinWidth", "90")]
    writes := [("buttonMinWidth", "90")] }

/-- The state in which start-up leaves `samplePage` in the wide container. -/
def wideState : St :=
  { sampleState with
    scrollInterval := some { currentScroll := 0, containerWidth := 3840, contentWidth := 3200 }
    stripWidth := some 3840 }

/-! ## Reference definitions that follow the specification -/

/-- The reference tick of the specification: a paused tick keeps the offset; an
unpaused tick yields `containerWidth` if `|offset - 1| ≥ contentWidth` and
`offset - 1` otherwise. -/
def tickReference (paused : Bool) (offset contentWidth containerWidth : Int) : Int :=
  if paused then offset
  else if |offset - 1| ≥ contentWidth then containerWidth
  else offset - 1

/-- Manual pause as the specification tracks it: the stored `tickerState` is
"paused". -/
def manualPause (s : St) : Bool :=
  decide (getLocalStorage s "tickerState" = some "paused")

/-- The pointer is over the ticker: `data-hovered` is "true". -/
def hovered (s : St) : Bool :=
  decide (s.dataHovered = some "true")

/-- Focus is inside the ticker: `data-focused` is "true". -/
def focused (s : St) : Bool :=
  decide (s.dataFocused = some "true")

/-- Effective pause of the specification: manual pause OR hovered OR focused OR
reduced motion. -/
def effectivePaused (s : St) : Bool :=
  manualPause s || hovered s || focused s || s.prefersReducedMotion

/-- Events that keep the pause sources apart: focus-in and focus-out
alternate; no click, pointer-enter or pointer-leave while focused; no click
while hovered; no pointer-leave while manually paused. -/
def separate (s : St) : Event → Bool
  | .domContentLoaded => true
  | .click _ => !hovered s && !focused s
  | .mouseenter => !focused s
  | .mouseleave => !focused s && !manualPause s
  | .focusin => !focused s
  | .focusout => focused s
  | .timer => true

/-- Every event of the sequence is `separate` in the state it meets, and no
listener throws. -/
def separateRun (env : Env) (s : St) : List Event → Bool
  | [] => true
  | e :: es =>
    separate s e &&
      match step env s e with
      | .ok s1 => separateRun env s1 es
      | .error _ => false

/-- What holds along runs that keep the pause sources apart: `data-playing`
mirrors the pause flag, the flag is the OR of manual pause, hover and focus,
and while focused the saved flag is the OR of manual pause and hover. -/
def sourcesAgree (s : St) : Prop :=
  s.donorTicker = true ∧ s.domContentLoadedListener = false ∧
    s.prefersReducedMotion = false ∧
    s.dataPlaying = some (if s.isPaused then "false" else "true") ∧
    s.isPaused = (manualPause s || hovered s || focused s) ∧
    (focused s = true → s.wasPausedBeforeFocus = (manualPause s || hovered s))

/-! ## Lemmas on the donor feed builder -/

theorem getDonorsLoop_mono {α : Type} (shuffle : List α → Nat → List α) (thisDonors : List α)
    (seed total : Nat) :
    ∀ (fuel : Nat) (donors r : List α),
      getDonorsLoop shuffle thisDonors seed total fuel donors = some r →
      getDonorsLoop shuffle thisDonors seed total (fuel + 1) donors = some r := by
  intro fuel
  induction fuel with
  | zero => intro donors r h; simp [getDonorsLoop] at h
  | succ k ih =>
    intro donors r h
    rw [getDonorsLoop] at h
    rw [getDonorsLoop]
    split_ifs at h with hlt
    · rw [if_pos hlt]; exact ih _ _ h
    · rw [if_neg hlt]; exact h

theorem getDonorsLoop_mono_le {α : Type} (shuffle : List α → Nat → List α)
    (thisDonors : List α) (seed total : Nat) (fuel fuel1 : Nat) (donors r : List α)
    (hle : fuel ≤ fuel1)
    (h : getDonorsLoop shuffle thisDonors seed total fuel donors = some r) :
    getDonorsLoop shuffle thisDonors seed total fuel1 donors = some r := by
  induction hle with
  | refl => exact h
  | step _ ih => exact getDonorsLoop_mono shuffle thisDonors seed total _ _ _ ih

theorem getDonorsLoop_spec {α : Type} (shuffle : List α → Nat → List α) (thisDonors : List α)
    (seed total : Nat) (hk : 0 < (shuffle thisDonors seed).length)
    (hsub : ∀ x ∈ shuffle thisDonors seed, x ∈ thisDonors) :
    ∀ (fuel : Nat) (donors : List α), total ≤ donors.length + fuel →
      ∃ r, getDonorsLoop shuffle thisDonors seed total (fuel + 1) donors = some r ∧
        total ≤ r.length ∧ ∀ x ∈ r, x ∈ donors ∨ x ∈ thisDonors := by
  intro fuel
  induction fuel with
  | zero =>
    intro donors h
    refine ⟨donors, ?_, by simpa using h, fun x hx => Or.inl hx⟩
    rw [getDonorsLoop, if_neg (by simpa using h)]
  | succ k ih =>
    intro donors h
    by_cases hlt : donors.length < total
    · obtain ⟨r, hr, hlen, hmem⟩ := ih (donors ++ shuffle thisDonors seed)
        (by rw [List.length_append]; omega)
      refine ⟨r, ?_, hlen, ?_⟩
      · rw [getDonorsLoop, if_pos hlt]; exact hr
      · intro x hx
        rcases hmem x hx with h1 | h1
        · rcases List.mem_append.mp h1 with h2 | h2
          · exact Or.inl h2
          · exact Or.inr (hsub x h2)
        · exact Or.inr h1
    · refine ⟨donors, ?_, by omega, fun x hx => Or.inl hx⟩
      rw [getDonorsLoop, if_neg hlt]

/-! ## `parseInt` on decimal text -/

theorem digitChar_facts (d : Nat) (h : d < 10) :
    (Nat.digitChar d).isDigit = true ∧ (Nat.digitChar d).toNat - 48 = d ∧
      isStrWhiteSpaceChar (Nat.digitChar d) = false ∧ Nat.digitChar d ≠ '-' ∧
      Nat.digitChar d ≠ '+' := by
  interval_cases d <;> decide

theorem toDigitsCore_spec : ∀ (fuel n : Nat) (ds : List Char), n < fuel →
    ∃ pre, Nat.toDigitsCore 10 fuel n ds = pre ++ ds ∧ pre ≠ [] ∧
      (∀ c ∈ pre, ∃ d, d < 10 ∧ c = Nat.digitChar d) ∧
      ∀ a, pre.foldl (fun n c => 10 * n + (c.toNat - 48)) a = a * 10 ^ pre.length + n := by
  intro fuel
  induction fuel with
  | zero => intro n ds h; omega
  | succ fuel ih =>
    intro n ds h
    have hd : n % 10 < 10 := Nat.mod_lt _ (by decide)
    rw [Nat.toDigitsCore]
    by_cases h0 : n / 10 = 0
    · simp only [h0, if_true]
      refine ⟨[Nat.digitChar (n % 10)], rfl, by simp, ?_, ?_⟩
      · intro c hc
        exact ⟨n % 10, hd, by simpa using hc⟩
      · intro a
        simp only [List.foldl, List.length_singleton, pow_one, (digitChar_facts _ hd).2.1]
        omega
    · simp only [h0, if_false]
      obtain ⟨pre, h1, h2, h3, h4⟩ := ih (n / 10) (Nat.digitChar (n % 10) :: ds) (by omega)
      refine ⟨pre ++ [Nat.digitChar (n % 10)], by simp [h1], by simp, ?_, ?_⟩
      · intro c hc
        rcases List.mem_append.mp hc with hc | hc
        · exact h3 c hc
        · exact ⟨n % 10, hd, by simpa using hc⟩
      · intro a
        rw [List.foldl_append, h4 a]
        simp only [List.foldl, List.length_append, List.length_singleton,
          (digitChar_facts _ hd).2.1, pow_succ]
        have := Nat.div_add_mod n 10
        nlinarith [this]

theorem toDigits_spec (n : Nat) :
    Nat.toDigits 10 n ≠ [] ∧ (∀ c ∈ Nat.toDigits 10 n, ∃ d, d < 10 ∧ c = Nat.digitChar d) ∧
      digitsValue (Nat.toDigits 10 n) = n := by
  obtain ⟨pre, h1, h2, h3, h4⟩ := toDigitsCore_spec (n + 1) n [] (by omega)
  rw [List.append_nil] at h1
  rw [Nat.toDigits, h1]
  exact ⟨h2, h3, by simpa [digitsValue] using h4 0⟩

theorem takeWhile_isDigit_of_digits (l : List Char)
    (h : ∀ c ∈ l, ∃ d, d < 10 ∧ c = Nat.digitChar d) : l.takeWhile Char.isDigit = l := by
  induction l with
  | nil => rfl
  | cons c rest ih =>
    obtain ⟨d, hd, hc⟩ := h c (by simp)
    rw [List.takeWhile_cons, hc, (digitChar_facts d hd).1]
    simp only [if_true]
    rw [ih (fun x hx => h x (by simp [hx]))]

/-- A text that starts with a decimal digit and holds digits only is read as the
double nearest to the number it spells. -/
theorem parseInt_of_digits (text : String) (c : Char) (rest : List Char)
    (htext : text.toList = c :: rest)
    (hall : ∀ x ∈ c :: rest, ∃ d, d < 10 ∧ x = Nat.digitChar d) :
    parseInt (some text) =
      match toDouble (digitsValue (c :: rest)) with
      | some v => .finite (v : Int)
      | none => .infinity false := by
  obtain ⟨d, hd, hc⟩ := hall c (by simp)
  obtain ⟨_, _, hws, hminus, hplus⟩ := digitChar_facts d hd
  rw [← hc] at hws hminus hplus
  have hdrop : (c :: rest).dropWhile isStrWhiteSpaceChar = c :: rest := by
    rw [List.dropWhile_cons, hws]; simp
  have htake := takeWhile_isDigit_of_digits (c :: rest) hall
  unfold parseInt
  simp only [htext, hdrop]
  have hneg : (match c :: rest with
      | '-' :: _ => true
      | _ => false) = false := by
    split
    · rename_i heq; exact absurd (List.cons.inj heq).1 hminus
    · rfl
  have hS : (match c :: rest with
      | '-' :: r => r
      | '+' :: r => r
      | _ => c :: rest) = c :: rest := by
    split
    · rename_i heq; exact absurd (List.cons.inj heq).1 hminus
    · rename_i heq; exact absurd (List.cons.inj heq).1 hplus
    · rfl
  rw [hneg, hS, htake]
  simp only [List.isEmpty_cons, Bool.false_eq_true, if_false]

/-- The same after a minus sign. -/
theorem parseInt_of_minus_digits (text : String) (c : Char) (rest : List Char)
    (htext : text.toList = '-' :: c :: rest)
    (hall : ∀ x ∈ c :: rest, ∃ d, d < 10 ∧ x = Nat.digitChar d) :
    parseInt (some text) =
      match toDouble (digitsValue (c :: rest)) with
      | some v => .finite (-(v : Int))
      | none => .infinity true := by
  have hdrop : ('-' :: c :: rest).dropWhile isStrWhiteSpaceChar = '-' :: c :: rest := by
    rw [List.dropWhile_cons]
    have : isStrWhiteSpaceChar '-' = false := by decide
    rw [this]; simp
  have htake := takeWhile_isDigit_of_digits (c :: rest) hall
  unfold parseInt
  simp only [htext, hdrop, htake, List.isEmpty_cons, Bool.false_eq_true, if_false, if_true]

/-- A text with no digit after optional white space and sign is `NaN`: here the
empty text and any text whose first character is not white space, a sign or a
digit. -/
theorem parseInt_nonnumeric (text : String)
    (h : text.toList = [] ∨ ∃ c rest, text.toList = c :: rest ∧
      isStrWhiteSpaceChar c = false ∧ c ≠ '-' ∧ c ≠ '+' ∧ c.isDigit = false) :
    parseInt (some text) = .nan := by
  unfold parseInt
  rcases h with h | ⟨c, rest, h, hws, hminus, hplus, hdig⟩
  · simp only [h]
    rfl
  · have hdrop : (c :: rest).dropWhile isStrWhiteSpaceChar = c :: rest := by
      rw [List.dropWhile_cons, hws]; simp
    have hS : (match c :: rest with
        | '-' :: r => r
        | '+' :: r => r
        | _ => c :: rest) = c :: rest := by
      split
      · rename_i heq; exact absurd (List.cons.inj heq).1 hminus
      · rename_i heq; exact absurd (List.cons.inj heq).1 hplus
      · rfl
    simp only [h, hdrop, hS, List.takeWhile_cons, hdig, Bool.false_eq_true, if_false,
      List.isEmpty_nil, if_true]

theorem toDouble_exact (n : Nat) (h : n < 2 ^ 53) : toDouble n = some n := by
  unfold toDouble
  rw [if_pos h]

/-- The decimal text of an integer of magnitude below `2 ^ 53` is read back
exactly. -/
theorem parseInt_toString (k : Int) (h : k.natAbs < 2 ^ 53) :
    parseInt (some (toString k)) = .finite k := by
  cases k with
  | ofNat m =>
    obtain ⟨hne, hall, hval⟩ := toDigits_spec m
    obtain ⟨c, rest, hl⟩ := List.exists_cons_of_ne_nil hne
    have htext : (toString (Int.ofNat m)).toList = c :: rest := by
      rw [← hl]; rfl
    rw [parseInt_of_digits _ c rest htext (hl ▸ hall), ← hl, hval,
      toDouble_exact m (by simpa using h)]
    rfl
  | negSucc m =>
    obtain ⟨hne, hall, hval⟩ := toDigits_spec (m + 1)
    obtain ⟨c, rest, hl⟩ := List.exists_cons_of_ne_nil hne
    have htext : (toString (Int.negSucc m)).toList = '-' :: c :: rest := by
      rw [← hl]
      show ("-" ++ Nat.repr (m + 1)).toList = _
      rw [String.toList, String.data_append]
      rfl
    rw [parseInt_of_minus_digits _ c rest htext (hl ▸ hall), ← hl, hval,
      toDouble_exact (m + 1) (by simpa using h)]
    rfl

theorem parseInt_examples :
    parseInt none = .nan ∧ parseInt (some "") = .nan ∧ parseInt (some "abc") = .nan ∧
      parseInt (some "120") = .finite 120 ∧ parseInt (some " 80px") = .finite 80 ∧
      parseInt (some "0") = .finite 0 ∧ parseInt (some "-5") = .finite (-5) ∧
      parseInt (some "74.9") = .finite 74 :=
  ⟨rfl, rfl, rfl, rfl, rfl, rfl, rfl, rfl⟩

set_option exponentiation.threshold 1100 in
set_option maxRecDepth 100000 in
theorem parseInt_rounds :
    parseInt (some "9007199254740993") = .finite 9007199254740992 ∧
      parseInt (some (String.mk ('1' :: List.replicate 399 '0'))) = .infinity false := by
  constructor
  · decide
  · decide

theorem initialMinWidth_examples :
    initialMinWidth (parseInt none) = some 75 ∧
      initialMinWidth (parseInt (some "abc")) = some 75 ∧
      initialMinWidth (parseInt (some "0")) = some 75 ∧
      initialMinWidth (parseInt (some "74")) = some 75 ∧
      initialMinWidth (parseInt (some "75")) = some 75 ∧
      initialMinWidth (parseInt (some "120")) = some 120 :=
  ⟨rfl, rfl, rfl, rfl, rfl, rfl⟩

/-! ## Lemmas on the interval callback -/

theorem tick_paused (scrollSpeed : Int) (c : ScrollState) : tick true scrollSpeed c = c := by
  simp [tick]

theorem tick_unpaused (c : ScrollState) :
    tick false 1 c =
      { c with currentScroll :=
          if c.contentWidth ≤ |c.currentScroll - 1| then c.containerWidth
          else c.currentScroll - 1 } := by
  simp [tick, Int.natCast_natAbs]

/-- While the strip has not yet scrolled off, `k` unpaused timer firings move the
offset `k` pixels to the left. -/
theorem run_timer_advance (env : Env) :
    ∀ (k : Nat) (s : St) (c : ScrollState), s.scrollInterval = some c →
      s.isPaused = false → s.scrollSpeed = 1 → c.currentScroll ≤ 0 →
      (k : Int) - c.currentScroll < c.contentWidth →
      ∃ s1, run env s (List.replicate k Event.timer) = .ok s1 ∧
        s1.scrollInterval = some { c with currentScroll := c.currentScroll - k } ∧
        s1.isPaused = false ∧ s1.scrollSpeed = 1 := by
  intro k
  induction k with
  | zero =>
    intro s c hc hp hs _ _
    exact ⟨s, by simp [run], by simpa using hc, hp, hs⟩
  | succ k ih =>
    intro s c hc hp hs h0 hlt
    have hnot : ¬ c.contentWidth ≤ |c.currentScroll - 1| := by
      rw [abs_of_nonpos (by omega)]; push_cast at hlt; omega
    obtain ⟨s1, hrun, hint, hp1, hs1⟩ :=
      ih (intervalCallback s c) { c with currentScroll := c.currentScroll - 1 }
        (by simp [intervalCallback, hp, hs, tick_unpaused, hnot])
        (by simp [intervalCallback, hp])
        (by simp [intervalCallback, hp, hs])
        (by simp only []; omega)
        (by simp only []; push_cast at hlt; omega)
    refine ⟨s1, ?_, ?_, hp1, hs1⟩
    · simp only [List.replicate_succ, run, step, hc]
      exact hrun
    · rw [hint]; simp only [ScrollState.mk.injEq, Option.some.injEq]
      push_cast
      refine ⟨by ring, trivial, trivial⟩

theorem startup_samplePage : startup samplePage [] false sampleEnv = .ok sampleState := rfl

theorem startup_wideState : startup samplePage [] false wideEnv = .ok wideState := rfl

/-! ## Fields the methods and listeners leave unchanged -/

@[simp]
theorem createTickerContainer_scrollSpeed (s : St) :
    (createTickerContainer s).scrollSpeed = s.scrollSpeed := by
  unfold createTickerContainer
  split <;> rfl

@[simp]
theorem createTickerContainer_scrollInterval (s : St) :
    (createTickerContainer s).scrollInterval = s.scrollInterval := by
  unfold createTickerContainer
  split <;> rfl

@[simp]
theorem createTickerContainer_prefersReducedMotion (s : St) :
    (createTickerContainer s).prefersReducedMotion = s.prefersReducedMotion := by
  unfold createTickerContainer
  split <;> rfl

@[simp]
theorem createTickerContainer_domContentLoadedListener (s : St) :
    (createTickerContainer s).domContentLoadedListener = s.domContentLoadedListener := by
  unfold createTickerContainer
  split <;> rfl

@[simp]
theorem createTickerContainer_donorTicker (s : St) :
    (createTickerContainer s).donorTicker = s.donorTicker := by
  unfold createTickerContainer
  split <;> rfl

@[simp]
theorem createTickerContainer_dataPlaying (s : St) :
    (createTickerContainer s).dataPlaying = s.dataPlaying := by
  unfold createTickerContainer
  split <;> rfl

@[simp]
theorem createTickerContainer_stripTransform (s : St) :
    (createTickerContainer s).stripTransform = s.stripTransform := by
  unfold createTickerContainer
  split <;> rfl

@[simp]
theorem createTickerContainer_localStorage (s : St) :
    (createTickerContainer s).localStorage = s.localStorage := by
  unfold createTickerContainer
  split <;> rfl

@[simp]
theorem createTickerContainer_writes (s : St) :
    (createTickerContainer s).writes = s.writes := by
  unfold createTickerContainer
  split <;> rfl

@[simp]
theorem displayDonations_scrollSpeed (s : St) (donors : List String) :
    (displayDonations s donors).scrollSpeed = s.scrollSpeed := by
  unfold displayDonations
  split <;> rfl

@[simp]
theorem displayDonations_scrollInterval (s : St) (donors : List String) :
    (displayDonations s donors).scrollInterval = s.scrollInterval := by
  unfold displayDonations
  split <;> rfl

@[simp]
theorem displayDonations_prefersReducedMotion (s : St) (donors : List String) :
    (displayDonations s donors).prefersReducedMotion = s.prefersReducedMotion := by
  unfold displayDonations
  split <;> rfl

@[simp]
theorem displayDonations_domContentLoadedListener (s : St) (donors : List String) :
    (displayDonations s donors).domContentLoadedListener = s.domContentLoadedListener := by
  unfold displayDonations
  split <;> rfl

@[simp]
theorem displayDonations_donorTicker (s : St) (donors : List String) :
    (displayDonations s donors).donorTicker = s.donorTicker := by
  unfold displayDonations
  split <;> rfl

@[simp]
theorem displayDonations_tickerContainer (s : St) (donors : List String) :
    (displayDonations s donors).tickerContainer = s.tickerContainer := by
  unfold displayDonations
  split <;> rfl

@[simp]
theorem displayDonations_dataPlaying (s : St) (donors : List String) :
    (displayDonations s donors).dataPlaying = s.dataPlaying := by
  unfold displayDonations
  split <;> rfl

@[simp]
theorem displayDonations_stripTransform (s : St) (donors : List String) :
    (displayDonations s donors).stripTransform = s.stripTransform := by
  unfold displayDonations
  split <;> rfl

@[simp]
theorem displayDonations_localStorage (s : St) (donors : List String) :
    (displayDonations s donors).localStorage = s.localStorage := by
  unfold displayDonations
  split <;> rfl

@[simp]
theorem displayDonations_writes (s : St) (donors : List String) :
    (displayDonations s donors).writes = s.writes := by
  unfold displayDonations
  split <;> rfl

@[simp]
theorem addStyles_isPaused (s : St) :
    (addStyles s).isPaused = s.isPaused := rfl

@[simp]
theorem addStyles_scrollSpeed (s : St) :
    (addStyles s).scrollSpeed = s.scrollSpeed := rfl

@[simp]
theorem addStyles_scrollInterval (s : St) :
    (addStyles s).scrollInterval = s.scrollInterval := rfl

@[simp]
theorem addStyles_prefersReducedMotion (s : St) :
    (addStyles s).prefersReducedMotion = s.prefersReducedMotion := rfl

@[simp]
theorem addStyles_domContentLoadedListener (s : St) :
    (addStyles s).domContentLoadedListener = s.domContentLoadedListener := rfl

@[simp]
theorem addStyles_donorTicker (s : St) :
    (addStyles s).donorTicker = s.donorTicker := rfl

@[simp]
theorem addStyles_tickerContainer (s : St) :
    (addStyles s).tickerContainer = s.tickerContainer := rfl

@[simp]
theorem addStyles_strip (s : St) :
    (addStyles s).strip = s.strip := rfl

@[simp]
theorem addStyles_dataPlaying (s : St) :
    (addStyles s).dataPlaying = s.dataPlaying := rfl

@[simp]
theorem addStyles_stripTransform (s : St) :
    (addStyles s).stripTransform = s.stripTransform := rfl

@[simp]
theorem addStyles_localStorage (s : St) :
    (addStyles s).localStorage = s.localStorage := rfl

@[simp]
theorem addStyles_writes (s : St) :
    (addStyles s).writes = s.writes := rfl

@[simp]
theorem addHoverAndFocusControls_isPaused (s : St) :
    (addHoverAndFocusControls s).isPaused = s.isPaused := by
  unfold addHoverAndFocusControls
  split <;> rfl

@[simp]
theorem addHoverAndFocusControls_scrollSpeed (s : St) :
    (addHoverAndFocusControls s).scrollSpeed = s.scrollSpeed := by
  unfold addHoverAndFocusControls
  split <;> rfl

@[simp]
theorem addHoverAndFocusControls_scrollInterval (s : St) :
    (addHoverAndFocusControls s).scrollInterval = s.scrollInterval := by
  unfold addHoverAndFocusControls
  split <;> rfl

@[simp]
theorem addHoverAndFocusControls_prefersReducedMotion (s : St) :
    (addHoverAndFocusControls s).prefersReducedMotion = s.prefersReducedMotion := by
  unfold addHoverAndFocusControls
  split <;> rfl

@[simp]
theorem addHoverAndFocusControls_domContentLoadedListener (s : St) :
    (addHoverAndFocusControls s).domContentLoadedListener = s.domContentLoadedListener := by
  unfold addHoverAndFocusControls
  split <;> rfl

@[simp]
theorem addHoverAndFocusControls_donorTicker (s : St) :
    (addHoverAndFocusControls s).donorTicker = s.donorTicker := by
  unfold addHoverAndFocusControls
  split <;> rfl

@[simp]
theorem addHoverAndFocusControls_strip (s : St) :
    (addHoverAndFocusControls s).strip = s.strip := by
  unfold addHoverAndFocusControls
  split <;> rfl

@[simp]
theorem addHoverAndFocusControls_dataPlaying (s : St) :
    (addHoverAndFocusControls s).dataPlaying = s.dataPlaying := by
  unfold addHoverAndFocusControls
  split <;> rfl

@[simp]
theorem addHoverAndFocusControls_stripTransform (s : St) :
    (addHoverAndFocusControls s).stripTransform = s.stripTransform := by
  unfold addHoverAndFocusControls
  split <;> rfl

@[simp]
theorem addHoverAndFocusControls_localStorage (s : St) :
    (addHoverAndFocusControls s).localStorage = s.localStorage := by
  unfold addHoverAndFocusControls
  split <;> rfl

@[simp]
theorem addHoverAndFocusControls_writes (s : St) :
    (addHoverAndFocusControls s).writes = s.writes := by
  unfold addHoverAndFocusControls
  split <;> rfl

@[simp]
theorem addAccessibilityControls_scrollSpeed (s : St) (buttonWidth : Int) :
    (addAccessibilityControls s buttonWidth).scrollSpeed = s.scrollSpeed := by
  unfold addAccessibilityControls setLocalStorage
  split
  · rfl
  · split <;> rfl

@[simp]
theorem addAccessibilityControls_scrollInterval (s : St) (buttonWidth : Int) :
    (addAccessibilityControls s buttonWidth).scrollInterval = s.scrollInterval := by
  unfold addAccessibilityControls setLocalStorage
  split
  · rfl
  · split <;> rfl

@[simp]
theorem addAccessibilityControls_prefersReducedMotion (s : St) (buttonWidth : Int) :
    (addAccessibilityControls s buttonWidth).prefersReducedMotion = s.prefersReducedMotion := by
  unfold addAccessibilityControls setLocalStorage
  split
  · rfl
  · split <;> rfl

@[simp]
theorem addAccessibilityControls_domContentLoadedListener (s : St) (buttonWidth : Int) :
    (addAccessibilityControls s buttonWidth).domContentLoadedListener = s.domContentLoadedListener := by
  unfold addAccessibilityControls setLocalStorage
  split
  · rfl
  · split <;> rfl

@[simp]
theorem addAccessibilityControls_donorTicker (s : St) (buttonWidth : Int) :
    (addAccessibilityControls s buttonWidth).donorTicker = s.donorTicker := by
  unfold addAccessibilityControls setLocalStorage
  split
  · rfl
  · split <;> rfl

@[simp]
theorem addAccessibilityControls_tickerContainer (s : St) (buttonWidth : Int) :
    (addAccessibilityControls s buttonWidth).tickerContainer = s.tickerContainer := by
  unfold addAccessibilityControls setLocalStorage
  split
  · rfl
  · split <;> rfl

@[simp]
theorem addAccessibilityControls_strip (s : St) (buttonWidth : Int) :
    (addAccessibilityControls s buttonWidth).strip = s.strip := by
  unfold addAccessibilityControls setLocalStorage
  split
  · rfl
  · split <;> rfl

@[simp]
theorem addAccessibilityControls_dataPlaying (s : St) (buttonWidth : Int) :
    (addAccessibilityControls s buttonWidth).dataPlaying = s.dataPlaying := by
  unfold addAccessibilityControls setLocalStorage
  split
  · rfl
  · split <;> rfl

@[simp]
theorem addAccessibilityControls_stripTransform (s : St) (buttonWidth : Int) :
    (addAccessibilityControls s buttonWidth).stripTransform = s.stripTransform := by
  unfold addAccessibilityControls setLocalStorage
  split
  · rfl
  · split <;> rfl

@[simp]
theorem onclick_scrollSpeed (s : St) (pauseButton : Button) (newButtonWidth : Int) :
    (onclick s pauseButton newButtonWidth).scrollSpeed = s.scrollSpeed := by
  unfold onclick setLocalStorage
  by_cases h1 : newButtonWidth > FALLBACK_MIN_WIDTH <;> by_cases h2 : s.donorTicker = true <;>
    simp [h1, h2]

@[simp]
theorem onclick_scrollInterval (s : St) (pauseButton : Button) (newButtonWidth : Int) :
    (onclick s pauseButton newButtonWidth).scrollInterval = s.scrollInterval := by
  unfold onclick setLocalStorage
  by_cases h1 : newButtonWidth > FALLBACK_MIN_WIDTH <;> by_cases h2 : s.donorTicker = true <;>
    simp [h1, h2]

@[simp]
theorem onclick_prefersReducedMotion (s : St) (pauseButton : Button) (newButtonWidth : Int) :
    (onclick s pauseButton newButtonWidth).prefersReducedMotion = s.prefersReducedMotion := by
  unfold onclick setLocalStorage
  by_cases h1 : newButtonWidth > FALLBACK_MIN_WIDTH <;> by_cases h2 : s.donorTicker = true <;>
    simp [h1, h2]

@[simp]
theorem onclick_domContentLoadedListener (s : St) (pauseButton : Button) (newButtonWidth : Int) :
    (onclick s pauseButton newButtonWidth).domContentLoadedListener = s.domContentLoadedListener := by
  unfold onclick setLocalStorage
  by_cases h1 : newButtonWidth > FALLBACK_MIN_WIDTH <;> by_cases h2 : s.donorTicker = true <;>
    simp [h1, h2]

@[simp]
theorem onclick_donorTicker (s : St) (pauseButton : Button) (newButtonWidth : Int) :
    (onclick s pauseButton newButtonWidth).donorTicker = s.donorTicker := by
  unfold onclick setLocalStorage
  by_cases h1 : newButtonWidth > FALLBACK_MIN_WIDTH <;> by_cases h2 : s.donorTicker = true <;>
    simp [h1, h2]

@[simp]
theorem onclick_stripTransform (s : St) (pauseButton : Button) (newButtonWidth : Int) :
    (onclick s pauseButton newButtonWidth).stripTransform = s.stripTransform := by
  unfold onclick setLocalStorage
  by_cases h1 : newButtonWidth > FALLBACK_MIN_WIDTH <;> by_cases h2 : s.donorTicker = true <;>
    simp [h1, h2]

@[simp]
theorem intervalCallback_isPaused (s : St) (c : ScrollState) :
    (intervalCallback s c).isPaused = s.isPaused := by
  unfold intervalCallback
  split <;> rfl

@[simp]
theorem intervalCallback_scrollSpeed (s : St) (c : ScrollState) :
    (intervalCallback s c).scrollSpeed = s.scrollSpeed := by
  unfold intervalCallback
  split <;> rfl

@[simp]
theorem intervalCallback_domContentLoadedListener (s : St) (c : ScrollState) :
    (intervalCallback s c).domContentLoadedListener = s.domContentLoadedListener := by
  unfold intervalCallback
  split <;> rfl

@[simp]
theorem intervalCallback_donorTicker (s : St) (c : ScrollState) :
    (intervalCallback s c).donorTicker = s.donorTicker := by
  unfold intervalCallback
  split <;> rfl

@[simp]
theorem intervalCallback_dataPlaying (s : St) (c : ScrollState) :
    (intervalCallback s c).dataPlaying = s.dataPlaying := by
  unfold intervalCallback
  split <;> rfl

@[simp]
theorem intervalCallback_writes (s : St) (c : ScrollState) :
    (intervalCallback s c).writes = s.writes := by
  unfold intervalCallback
  split <;> rfl

/-! ## What the methods and listeners change -/

theorem lookup_tickerState_cons_minWidth (value : String) (store : Storage) :
    List.lookup "tickerState" (("buttonMinWidth", value) :: store) =
      List.lookup "tickerState" store := by
  rw [List.lookup_cons]
  have h : ("tickerState" == "buttonMinWidth") = false := by decide
  rw [h]

theorem addAccessibilityControls_tickerState (s : St) (buttonWidth : Int) :
    getLocalStorage (addAccessibilityControls s buttonWidth) "tickerState" =
      getLocalStorage s "tickerState" := by
  unfold addAccessibilityControls setLocalStorage getLocalStorage
  split
  · rfl
  · split
    · exact lookup_tickerState_cons_minWidth _ _
    · rfl

theorem addAccessibilityControls_paused (s : St) (buttonWidth : Int)
    (h : s.tickerContainer = true) :
    (addAccessibilityControls s buttonWidth).isPaused =
      decide (getLocalStorage s "tickerState" = some "paused") := by
  unfold addAccessibilityControls setLocalStorage
  simp only [h, Bool.not_true, Bool.false_eq_true, if_false]
  split <;> rfl

theorem addAccessibilityControls_minWidth (s : St) (buttonWidth : Int)
    (h : s.tickerContainer = true) :
    ∃ b, (addAccessibilityControls s buttonWidth).button = some b ∧
      b.minWidth =
        if buttonWidth > FALLBACK_MIN_WIDTH then some buttonWidth
        else initialMinWidth (parseInt (getLocalStorage s "buttonMinWidth")) := by
  unfold addAccessibilityControls setLocalStorage
  simp only [h, Bool.not_true, Bool.false_eq_true, if_false]
  split
  · exact ⟨_, rfl, rfl⟩
  · exact ⟨_, rfl, rfl⟩

theorem addAccessibilityControls_writes_eq (s : St) (buttonWidth : Int) :
    (addAccessibilityControls s buttonWidth).writes = s.writes ∨
      ((addAccessibilityControls s buttonWidth).writes =
          ("buttonMinWidth", toString buttonWidth) :: s.writes ∧
        FALLBACK_MIN_WIDTH < buttonWidth) := by
  unfold addAccessibilityControls setLocalStorage
  split
  · exact Or.inl rfl
  · split
    · rename_i hgt
      exact Or.inr ⟨rfl, hgt⟩
    · exact Or.inl rfl

@[simp]
theorem onclick_isPaused (s : St) (pauseButton : Button) (newButtonWidth : Int) :
    (onclick s pauseButton newButtonWidth).isPaused = !s.isPaused := by
  unfold onclick setLocalStorage
  by_cases h1 : newButtonWidth > FALLBACK_MIN_WIDTH <;> by_cases h2 : s.donorTicker = true <;>
    simp [h1, h2]

theorem onclick_dataPlaying (s : St) (pauseButton : Button) (newButtonWidth : Int)
    (h : s.donorTicker = true) :
    (onclick s pauseButton newButtonWidth).dataPlaying =
      some (if s.isPaused then "true" else "false") := by
  unfold onclick setLocalStorage
  by_cases h1 : newButtonWidth > FALLBACK_MIN_WIDTH <;> cases h2 : s.isPaused <;>
    simp [h1, h2, h]

theorem onclick_tickerState (s : St) (pauseButton : Button) (newButtonWidth : Int) :
    getLocalStorage (onclick s pauseButton newButtonWidth) "tickerState" =
      some (if s.isPaused then "playing" else "paused") := by
  unfold onclick setLocalStorage getLocalStorage
  by_cases h1 : newButtonWidth > FALLBACK_MIN_WIDTH <;> by_cases h2 : s.donorTicker = true <;>
    cases h3 : s.isPaused <;> simp [h1, h2, h3, List.lookup_cons]

theorem onclick_writes_eq (s : St) (pauseButton : Button) (newButtonWidth : Int) :
    (onclick s pauseButton newButtonWidth).writes =
        ("tickerState", if s.isPaused then "playing" else "paused") :: s.writes ∨
      ((onclick s pauseButton newButtonWidth).writes =
          ("tickerState", if s.isPaused then "playing" else "paused") ::
            ("buttonMinWidth", toString newButtonWidth) :: s.writes ∧
        FALLBACK_MIN_WIDTH < newButtonWidth) := by
  unfold onclick setLocalStorage
  by_cases h1 : newButtonWidth > FALLBACK_MIN_WIDTH <;> by_cases h2 : s.donorTicker = true <;>
    cases h3 : s.isPaused <;> simp [h1, h2, h3]

theorem startScrolling_ok (s : St) (env : Env) (hT : s.donorTicker = true)
    (hS : s.strip = true) :
    ∃ s1, startScrolling s env = .ok s1 ∧
      s1.isPaused = decide (getLocalStorage s "tickerState" = some "paused") ∧
      s1.dataPlaying = some (if s1.isPaused then "false" else "true") ∧
      s1.scrollInterval =
        some ⟨0, env.containerWidth, env.itemWidths.foldl (fun total item => total + item) 0⟩ := by
  unfold startScrolling getLocalStorage
  simp only [hT, hS, Bool.not_true, Bool.false_eq_true, if_false]
  exact ⟨_, rfl, rfl, rfl, rfl⟩

theorem startScrolling_fields (s : St) (env : Env) (s1 : St)
    (h : startScrolling s env = .ok s1) :
    s1.scrollSpeed = s.scrollSpeed ∧
      s1.domContentLoadedListener = s.domContentLoadedListener ∧
      s1.prefersReducedMotion = s.prefersReducedMotion ∧
      s1.donorTicker = true ∧ s1.stripTransform = s.stripTransform ∧
      s1.writes = s.writes ∧ s1.localStorage = s.localStorage ∧ s1.button = s.button := by
  unfold startScrolling at h
  cases hT : s.donorTicker with
  | false => simp [hT] at h
  | true =>
    cases hS : s.strip with
    | false =>
      simp only [hT, hS, Bool.not_true, Bool.not_false, Bool.false_eq_true, if_false,
        if_true, Except.ok.injEq] at h
      subst h
      exact ⟨rfl, rfl, rfl, hT, rfl, rfl, rfl, rfl⟩
    | true =>
      simp only [hT, hS, Bool.not_true, Bool.false_eq_true, if_false, Except.ok.injEq] at h
      subst h
      exact ⟨rfl, rfl, rfl, rfl, rfl, rfl, rfl, rfl⟩

/-! ## The start-up sequence and the constructor -/

theorem startupSequence_reduced (s : St) (env : Env) (h : s.prefersReducedMotion = true) :
    ∃ s1, startupSequence s env = .ok s1 ∧ s1.scrollInterval = s.scrollInterval ∧
      s1.stripTransform = s.stripTransform ∧
      s1.domContentLoadedListener = s.domContentLoadedListener ∧
      s1.prefersReducedMotion = true ∧ s1.dataPlaying = s.dataPlaying := by
  unfold startupSequence
  simp [h]

theorem displayDonations_strip_of_ticker (s : St) (donors : List String)
    (h : s.donorTicker = true) : (displayDonations s donors).strip = true := by
  simp [displayDonations, h]

theorem createTickerContainer_of_ticker (s : St) (h : s.donorTicker = true) :
    (createTickerContainer s).tickerContainer = true := by
  simp [createTickerContainer, h]

theorem startupSequence_ticker (s : St) (env : Env) (hT : s.donorTicker = true) :
    ∃ s1, startupSequence s env = .ok s1 ∧ s1.donorTicker = true ∧
      s1.domContentLoadedListener = s.domContentLoadedListener ∧
      s1.isPaused = decide (getLocalStorage s "tickerState" = some "paused") ∧
      (s.prefersReducedMotion = false →
        s1.dataPlaying = some (if s1.isPaused then "false" else "true")) ∧
      ∃ b, s1.button = some b ∧
        b.minWidth =
          if env.buttonWidth > FALLBACK_MIN_WIDTH then some env.buttonWidth
          else initialMinWidth (parseInt (getLocalStorage s "buttonMinWidth")) := by
  have hC : (addStyles (displayDonations (createTickerContainer s) env.display)).tickerContainer
      = true := by
    simp [createTickerContainer_of_ticker s hT]
  have hP := addAccessibilityControls_paused
    (addStyles (displayDonations (createTickerContainer s) env.display)) env.buttonWidth hC
  have hK := addAccessibilityControls_tickerState
    (addStyles (displayDonations (createTickerContainer s) env.display)) env.buttonWidth
  obtain ⟨b, hb, hbw⟩ := addAccessibilityControls_minWidth
    (addStyles (displayDonations (createTickerContainer s) env.display)) env.buttonWidth hC
  have hL : getLocalStorage (addStyles (displayDonations (createTickerContainer s) env.display))
      = getLocalStorage s := by
    funext key; simp [getLocalStorage]
  rw [hL] at hP hK hbw
  unfold startupSequence
  simp only []
  cases hR : s.prefersReducedMotion with
  | true =>
    simp only [addHoverAndFocusControls_prefersReducedMotion,
      addAccessibilityControls_prefersReducedMotion, addStyles_prefersReducedMotion,
      displayDonations_prefersReducedMotion, createTickerContainer_prefersReducedMotion, hR,
      Bool.not_true, Bool.false_eq_true, if_false]
    refine ⟨_, rfl, by simp [hT], by simp, by simp [hP], by simp, b, ?_, hbw⟩
    rw [← hb]
    simp [addHoverAndFocusControls, hT]
  | false =>
    simp only [addHoverAndFocusControls_prefersReducedMotion,
      addAccessibilityControls_prefersReducedMotion, addStyles_prefersReducedMotion,
      displayDonations_prefersReducedMotion, createTickerContainer_prefersReducedMotion, hR,
      Bool.not_false, if_true]
    obtain ⟨s1, hs1, hp1, hd1, _⟩ := startScrolling_ok
      (addHoverAndFocusControls (addAccessibilityControls
        (addStyles (displayDonations (createTickerContainer s) env.display)) env.buttonWidth))
      env (by simp [hT])
      (by simp [displayDonations_strip_of_ticker (createTickerContainer s) env.display
        (by simp [hT])])
    obtain ⟨_, hl, _, ht, _, _, _, hbt⟩ := startScrolling_fields _ env s1 hs1
    refine ⟨s1, hs1, ht, by simp [hl], ?_, fun _ => hd1, b, ?_, hbw⟩
    · rw [hp1]
      have : getLocalStorage (addHoverAndFocusControls (addAccessibilityControls
          (addStyles (displayDonations (createTickerContainer s) env.display)) env.buttonWidth))
          "tickerState" = getLocalStorage s "tickerState" := by
        rw [← hK]; simp [getLocalStorage]
      rw [this]
    · rw [hbt, ← hb]
      simp [addHoverAndFocusControls, hT]

theorem startupSequence_fields (s : St) (env : Env) (s1 : St)
    (h : startupSequence s env = .ok s1) :
    s1.scrollSpeed = s.scrollSpeed ∧
      s1.domContentLoadedListener = s.domContentLoadedListener ∧
      (s1.writes = s.writes ∨
        (s1.writes = ("buttonMinWidth", toString env.buttonWidth) :: s.writes ∧
          FALLBACK_MIN_WIDTH < env.buttonWidth)) := by
  have hW := addAccessibilityControls_writes_eq
    (addStyles (displayDonations (createTickerContainer s) env.display)) env.buttonWidth
  simp only [addStyles_writes, displayDonations_writes, createTickerContainer_writes] at hW
  unfold startupSequence at h
  simp only [] at h
  split at h
  · obtain ⟨h1, h2, _, _, _, h6, _, _⟩ := startScrolling_fields _ env s1 h
    refine ⟨by simpa using h1, by simpa using h2, ?_⟩
    rw [h6]; simpa using hW
  · simp only [Except.ok.injEq] at h
    subst h
    exact ⟨by simp, by simp, by simpa using hW⟩

@[simp]
theorem assignFields_scrollSpeed (page : Page) (store : Storage) (prm : Bool) :
    (assignFields page store prm).scrollSpeed = 1 := by
  unfold assignFields blank
  dsimp only
  split_ifs <;> rfl

@[simp]
theorem assignFields_scrollInterval (page : Page) (store : Storage) (prm : Bool) :
    (assignFields page store prm).scrollInterval = none := by
  unfold assignFields blank
  dsimp only
  split_ifs <;> rfl

@[simp]
theorem assignFields_stripTransform (page : Page) (store : Storage) (prm : Bool) :
    (assignFields page store prm).stripTransform = none := by
  unfold assignFields blank
  dsimp only
  split_ifs <;> rfl

@[simp]
theorem assignFields_prefersReducedMotion (page : Page) (store : Storage) (prm : Bool) :
    (assignFields page store prm).prefersReducedMotion = prm := by
  unfold assignFields blank
  dsimp only
  split_ifs <;> rfl

@[simp]
theorem assignFields_domContentLoadedListener (page : Page) (store : Storage) (prm : Bool) :
    (assignFields page store prm).domContentLoadedListener = false := by
  unfold assignFields blank
  dsimp only
  split_ifs <;> rfl

@[simp]
theorem assignFields_donorTicker (page : Page) (store : Storage) (prm : Bool) :
    (assignFields page store prm).donorTicker = page.donorTicker := by
  unfold assignFields blank
  dsimp only
  split_ifs <;> rfl

@[simp]
theorem assignFields_writes (page : Page) (store : Storage) (prm : Bool) :
    (assignFields page store prm).writes = [] := by
  unfold assignFields blank
  dsimp only
  split_ifs <;> rfl

@[simp]
theorem assignFields_localStorage (page : Page) (store : Storage) (prm : Bool) :
    (assignFields page store prm).localStorage = store := by
  unfold assignFields blank
  dsimp only
  split_ifs <;> rfl

/-! ## Invariants of event sequences -/

theorem run_preserves (env : Env) (P : St → Prop)
    (hstep : ∀ s e s1, P s → step env s e = .ok s1 → P s1) :
    ∀ (events : List Event) (s s1 : St), P s → run env s events = .ok s1 → P s1 := by
  intro events
  induction events with
  | nil =>
    intro s s1 hP h
    simp only [run, Except.ok.injEq] at h
    exact h ▸ hP
  | cons e es ih =>
    intro s s1 hP h
    simp only [run] at h
    cases hs : step env s e with
    | ok s2 => rw [hs] at h; exact ih s2 s1 (hstep s e s2 hP hs) h
    | error err => rw [hs] at h; simp at h

theorem run_total (env : Env) (P : St → Prop)
    (hstep : ∀ s e, P s → ∃ s1, step env s e = .ok s1 ∧ P s1) :
    ∀ (events : List Event) (s : St), P s → ∃ s1, run env s events = .ok s1 ∧ P s1 := by
  intro events
  induction events with
  | nil => intro s hP; exact ⟨s, rfl, hP⟩
  | cons e es ih =>
    intro s hP
    obtain ⟨s2, hs, hP2⟩ := hstep s e hP
    obtain ⟨s1, hr, hP1⟩ := ih s2 hP2
    exact ⟨s1, by simp only [run, hs]; exact hr, hP1⟩

/-- With reduced motion, no event installs a timer or moves the strip. -/
theorem step_reduced (env : Env) (s : St) (e : Event)
    (h : s.scrollInterval = none ∧ s.stripTransform = none ∧
      (s.domContentLoadedListener = true → s.prefersReducedMotion = true)) :
    ∃ s1, step env s e = .ok s1 ∧ s1.scrollInterval = none ∧ s1.stripTransform = none ∧
      (s1.domContentLoadedListener = true → s1.prefersReducedMotion = true) := by
  obtain ⟨h1, h2, h3⟩ := h
  cases e with
  | domContentLoaded =>
    simp only [step]
    by_cases hl : s.domContentLoadedListener = true
    · rw [if_pos hl]
      obtain ⟨s1, hs, hi, ht, hl1, hr, _⟩ :=
        startupSequence_reduced { s with domContentLoadedListener := false } env (h3 hl)
      exact ⟨s1, hs, hi.trans h1, ht.trans h2, fun _ => hr⟩
    · rw [if_neg hl]
      exact ⟨s, rfl, h1, h2, h3⟩
  | click w =>
    simp only [step]
    cases s.button with
    | none => exact ⟨s, rfl, h1, h2, h3⟩
    | some b => exact ⟨_, rfl, by simp [h1], by simp [h2], by simpa using h3⟩
  | mouseenter =>
    simp only [step]
    split_ifs
    · exact ⟨_, rfl, h1, h2, h3⟩
    · exact ⟨_, rfl, h1, h2, h3⟩
  | mouseleave =>
    simp only [step]
    split_ifs
    · exact ⟨_, rfl, h1, h2, h3⟩
    · exact ⟨_, rfl, h1, h2, h3⟩
  | focusin =>
    simp only [step]
    split_ifs
    · exact ⟨_, rfl, h1, h2, h3⟩
    · exact ⟨_, rfl, h1, h2, h3⟩
  | focusout =>
    simp only [step]
    split_ifs
    · refine ⟨_, rfl, ?_, ?_, ?_⟩ <;> (unfold focusout; dsimp only; split_ifs <;> assumption)
    · exact ⟨_, rfl, h1, h2, h3⟩
  | timer =>
    simp only [step, h1]
    exact ⟨s, rfl, h1, h2, h3⟩

/-- Once start-up has run on a page with a ticker, every event keeps
`data-playing` equal to the negation of the pause flag. -/
theorem step_mirror (env : Env) (s : St) (e : Event)
    (h : s.donorTicker = true ∧ s.domContentLoadedListener = false ∧
      s.dataPlaying = some (if s.isPaused then "false" else "true")) :
    ∃ s1, step env s e = .ok s1 ∧ s1.donorTicker = true ∧
      s1.domContentLoadedListener = false ∧
      s1.dataPlaying = some (if s1.isPaused then "false" else "true") := by
  obtain ⟨h1, h2, h3⟩ := h
  cases e with
  | domContentLoaded =>
    simp only [step, h2, Bool.false_eq_true, if_false]
    exact ⟨s, rfl, h1, h2, h3⟩
  | click w =>
    simp only [step]
    cases s.button with
    | none => exact ⟨s, rfl, h1, h2, h3⟩
    | some b =>
      refine ⟨_, rfl, by simp [h1], by simp [h2], ?_⟩
      rw [onclick_dataPlaying s b w h1, onclick_isPaused]
      cases s.isPaused <;> rfl
  | mouseenter =>
    simp only [step]
    split_ifs
    · exact ⟨_, rfl, h1, h2, rfl⟩
    · exact ⟨_, rfl, h1, h2, h3⟩
  | mouseleave =>
    simp only [step]
    split_ifs
    · exact ⟨_, rfl, h1, h2, rfl⟩
    · exact ⟨_, rfl, h1, h2, h3⟩
  | focusin =>
    simp only [step]
    split_ifs
    · exact ⟨_, rfl, h1, h2, rfl⟩
    · exact ⟨_, rfl, h1, h2, h3⟩
  | focusout =>
    simp only [step]
    split_ifs
    · refine ⟨_, rfl, ?_, ?_, ?_⟩
      · unfold focusout; dsimp only; split_ifs <;> exact h1
      · unfold focusout; dsimp only; split_ifs <;> exact h2
      · unfold focusout; dsimp only
        cases hw : s.wasPausedBeforeFocus <;> simp [h3]
    · exact ⟨_, rfl, h1, h2, h3⟩
  | timer =>
    simp only [step]
    cases s.scrollInterval with
    | none => exact ⟨s, rfl, h1, h2, h3⟩
    | some c => exact ⟨_, rfl, by simp [h1], by simp [h2], by simp [h3]⟩

/-- A waiting listener or an installed timer implies scroll speed 1. -/
theorem step_speed (env : Env) (s : St) (e : Event) (s1 : St)
    (h : s.scrollSpeed = 1 ∨ (s.domContentLoadedListener = false ∧ s.scrollInterval = none))
    (hs : step env s e = .ok s1) :
    s1.scrollSpeed = 1 ∨ (s1.domContentLoadedListener = false ∧ s1.scrollInterval = none) := by
  cases e with
  | domContentLoaded =>
    simp only [step] at hs
    by_cases hl : s.domContentLoadedListener = true
    · rw [if_pos hl] at hs
      have h1 : s.scrollSpeed = 1 := by
        rcases h with h | ⟨h, _⟩
        · exact h
        · rw [hl] at h; exact absurd h (by decide)
      obtain ⟨h2, _, _⟩ := startupSequence_fields _ env s1 hs
      exact Or.inl (h2.trans h1)
    · rw [if_neg hl] at hs
      simp only [Except.ok.injEq] at hs
      exact hs ▸ h
  | click w =>
    simp only [step] at hs
    cases hb : s.button with
    | none => rw [hb] at hs; simp only [Except.ok.injEq] at hs; exact hs ▸ h
    | some b =>
      rw [hb] at hs; simp only [Except.ok.injEq] at hs
      subst hs
      simpa using h
  | mouseenter =>
    simp only [step, Except.ok.injEq] at hs
    subst hs
    split_ifs <;> exact h
  | mouseleave =>
    simp only [step, Except.ok.injEq] at hs
    subst hs
    split_ifs <;> exact h
  | focusin =>
    simp only [step, Except.ok.injEq] at hs
    subst hs
    split_ifs <;> exact h
  | focusout =>
    simp only [step, Except.ok.injEq] at hs
    subst hs
    split_ifs
    · unfold focusout; dsimp only; split_ifs <;> exact h
    · exact h
  | timer =>
    simp only [step] at hs
    cases hc : s.scrollInterval with
    | none => rw [hc] at hs; simp only [Except.ok.injEq] at hs; exact hs ▸ h
    | some c =>
      rw [hc] at hs; simp only [Except.ok.injEq] at hs
      subst hs
      rcases h with h | ⟨_, h⟩
      · exact Or.inl (by simpa using h)
      · rw [hc] at h; exact absurd h (by simp)

/-- Every value logged for `buttonMinWidth` is the decimal text of an integer
above the fallback. -/
theorem step_writes (env : Env) (s : St) (e : Event) (s1 : St)
    (h : ∀ value, ("buttonMinWidth", value) ∈ s.writes →
      ∃ w : Int, value = toString w ∧ FALLBACK_MIN_WIDTH < w)
    (hs : step env s e = .ok s1) :
    ∀ value, ("buttonMinWidth", value) ∈ s1.writes →
      ∃ w : Int, value = toString w ∧ FALLBACK_MIN_WIDTH < w := by
  cases e with
  | domContentLoaded =>
    simp only [step] at hs
    by_cases hl : s.domContentLoadedListener = true
    · rw [if_pos hl] at hs
      obtain ⟨_, _, hw⟩ := startupSequence_fields _ env s1 hs
      intro value hv
      rcases hw with hw | ⟨hw, hgt⟩
      · rw [hw] at hv; exact h value hv
      · rw [hw] at hv
        rcases List.mem_cons.mp hv with hv | hv
        · exact ⟨env.buttonWidth, by simpa using hv, hgt⟩
        · exact h value hv
    · rw [if_neg hl] at hs
      simp only [Except.ok.injEq] at hs
      exact hs ▸ h
  | click w =>
    simp only [step] at hs
    cases hb : s.button with
    | none => rw [hb] at hs; simp only [Except.ok.injEq] at hs; exact hs ▸ h
    | some b =>
      rw [hb] at hs; simp only [Except.ok.injEq] at hs
      subst hs
      intro value hv
      rcases onclick_writes_eq s b w with hw | ⟨hw, hgt⟩
      · rw [hw] at hv
        rcases List.mem_cons.mp hv with hv | hv
        · simp at hv
        · exact h value hv
      · rw [hw] at hv
        rcases List.mem_cons.mp hv with hv | hv
        · simp at hv
        · rcases List.mem_cons.mp hv with hv | hv
          · exact ⟨w, by simpa using hv, hgt⟩
          · exact h value hv
  | mouseenter =>
    simp only [step, Except.ok.injEq] at hs
    subst hs
    split_ifs <;> exact h
  | mouseleave =>
    simp only [step, Except.ok.injEq] at hs
    subst hs
    split_ifs <;> exact h
  | focusin =>
    simp only [step, Except.ok.injEq] at hs
    subst hs
    split_ifs <;> exact h
  | focusout =>
    simp only [step, Except.ok.injEq] at hs
    subst hs
    split_ifs
    · unfold focusout; dsimp only; split_ifs <;> exact h
    · exact h
  | timer =>
    simp only [step] at hs
    cases hc : s.scrollInterval with
    | none => rw [hc] at hs; simp only [Except.ok.injEq] at hs; exact hs ▸ h
    | some c =>
      rw [hc] at hs; simp only [Except.ok.injEq] at hs
      subst hs
      simpa using h

/-! ## The state the constructor returns -/

theorem new_reduced (page : Page) (store : Storage) (env : Env) :
    ∃ s0, new page store true env = .ok s0 ∧ s0.scrollInterval = none ∧
      s0.stripTransform = none ∧
      (s0.domContentLoadedListener = true → s0.prefersReducedMotion = true) := by
  unfold new init
  split_ifs
  · exact ⟨_, rfl, rfl, rfl, fun h => absurd h (by simp [blank])⟩
  · exact ⟨_, rfl, by simp, by simp, fun _ => by simp⟩
  · obtain ⟨s1, hs, hi, ht, hl, hr, _⟩ :=
      startupSequence_reduced (assignFields page store true) env (by simp)
    exact ⟨s1, hs, by simpa using hi, by simpa using ht, fun _ => hr⟩

theorem new_speed (page : Page) (store : Storage) (prm : Bool) (env : Env) (s0 : St)
    (h : new page store prm env = .ok s0) :
    s0.scrollSpeed = 1 ∨ (s0.domContentLoadedListener = false ∧ s0.scrollInterval = none) := by
  unfold new init at h
  split_ifs at h
  · simp only [Except.ok.injEq] at h
    subst h
    exact Or.inr ⟨rfl, rfl⟩
  · simp only [Except.ok.injEq] at h
    subst h
    exact Or.inl (by simp)
  · obtain ⟨h1, _, _⟩ := startupSequence_fields _ env s0 h
    exact Or.inl (by simpa using h1)

theorem new_writes (page : Page) (store : Storage) (prm : Bool) (env : Env) (s0 : St)
    (h : new page store prm env = .ok s0) :
    ∀ value, ("buttonMinWidth", value) ∈ s0.writes →
      ∃ w : Int, value = toString w ∧ FALLBACK_MIN_WIDTH < w := by
  unfold new init at h
  split_ifs at h
  · simp only [Except.ok.injEq] at h
    subst h
    intro value hv
    simp [blank] at hv
  · simp only [Except.ok.injEq] at h
    subst h
    intro value hv
    simp at hv
  · obtain ⟨_, _, hw⟩ := startupSequence_fields _ env s0 h
    intro value hv
    rcases hw with hw | ⟨hw, hgt⟩
    · rw [hw] at hv; simp at hv
    · rw [hw] at hv
      simp only [assignFields_writes, List.mem_singleton, Prod.mk.injEq, true_and] at hv
      exact ⟨env.buttonWidth, hv, hgt⟩

/-- Start-up on a page with a `#donor-ticker` completes; the pause flag is
seeded from the stored state, and with reduced motion off `data-playing`
mirrors it. -/
theorem startup_ticker (page : Page) (store : Storage) (prm : Bool) (env : Env)
    (hT : page.donorTicker = true) :
    ∃ s0, startup page store prm env = .ok s0 ∧ s0.donorTicker = true ∧
      s0.domContentLoadedListener = false ∧
      s0.isPaused = decide (store.lookup "tickerState" = some "paused") ∧
      (prm = false → s0.dataPlaying = some (if s0.isPaused then "false" else "true")) ∧
      ∃ b, s0.button = some b ∧
        b.minWidth =
          if env.buttonWidth > FALLBACK_MIN_WIDTH then some env.buttonWidth
          else initialMinWidth (parseInt (store.lookup "buttonMinWidth")) := by
  have hne : (!page.donorList && !page.donorTicker) = false := by simp [hT]
  unfold startup new init
  rw [hne]
  simp only [Bool.false_eq_true, if_false]
  cases hL : page.loading with
  | true =>
    simp only [if_true, step]
    obtain ⟨s1, hs, h1, h2, h3, h4, h5⟩ := startupSequence_ticker
      { ({ assignFields page store prm with domContentLoadedListener := true } : St) with
        domContentLoadedListener := false } env (by simp [hT])
    refine ⟨s1, hs, h1, h2, ?_, ?_, ?_⟩
    · rw [h3]; simp [getLocalStorage]
    · intro hp; exact h4 (by simp [hp])
    · simpa [getLocalStorage] using h5
  | false =>
    simp only [Bool.false_eq_true, if_false]
    obtain ⟨s1, hs, h1, h2, h3, h4, h5⟩ :=
      startupSequence_ticker (assignFields page store prm) env (by simp [hT])
    have hl : s1.domContentLoadedListener = false := by simpa using h2
    rw [hs]
    simp only [step, hl, Bool.false_eq_true, if_false]
    refine ⟨s1, rfl, h1, hl, ?_, ?_, ?_⟩
    · rw [h3]; simp [getLocalStorage]
    · intro hp; exact h4 (by simp [hp])
    · simpa [getLocalStorage] using h5

theorem startupSequence_without_ticker (s : St) (env : Env) (hT : s.donorTicker = false)
    (hR : s.prefersReducedMotion = false) :
    startupSequence s env = .error "TypeError: tickerContainer is null" := by
  unfold startupSequence startScrolling
  simp [hT, hR]

/-! ## Further unchanged fields -/

@[simp]
theorem createTickerContainer_dataHovered (s : St) :
    (createTickerContainer s).dataHovered = s.dataHovered := by
  unfold createTickerContainer
  split <;> rfl

@[simp]
theorem createTickerContainer_dataFocused (s : St) :
    (createTickerContainer s).dataFocused = s.dataFocused := by
  unfold createTickerContainer
  split <;> rfl

@[simp]
theorem createTickerContainer_wasPausedBeforeFocus (s : St) :
    (createTickerContainer s).wasPausedBeforeFocus = s.wasPausedBeforeFocus := by
  unfold createTickerContainer
  split <;> rfl

@[simp]
theorem displayDonations_dataHovered (s : St) (donors : List String) :
    (displayDonations s donors).dataHovered = s.dataHovered := by
  unfold displayDonations
  split <;> rfl

@[simp]
theorem displayDonations_dataFocused (s : St) (donors : List String) :
    (displayDonations s donors).dataFocused = s.dataFocused := by
  unfold displayDonations
  split <;> rfl

@[simp]
theorem displayDonations_wasPausedBeforeFocus (s : St) (donors : List String) :
    (displayDonations s donors).wasPausedBeforeFocus = s.wasPausedBeforeFocus := by
  unfold displayDonations
  split <;> rfl

@[simp]
theorem addStyles_dataHovered (s : St) :
    (addStyles s).dataHovered = s.dataHovered := rfl

@[simp]
theorem addStyles_dataFocused (s : St) :
    (addStyles s).dataFocused = s.dataFocused := rfl

@[simp]
theorem addStyles_wasPausedBeforeFocus (s : St) :
    (addStyles s).wasPausedBeforeFocus = s.wasPausedBeforeFocus := rfl

@[simp]
theorem addHoverAndFocusControls_dataHovered (s : St) :
    (addHoverAndFocusControls s).dataHovered = s.dataHovered := by
  unfold addHoverAndFocusControls
  split <;> rfl

@[simp]
theorem addHoverAndFocusControls_dataFocused (s : St) :
    (addHoverAndFocusControls s).dataFocused = s.dataFocused := by
  unfold addHoverAndFocusControls
  split <;> rfl

@[simp]
theorem addHoverAndFocusControls_wasPausedBeforeFocus (s : St) :
    (addHoverAndFocusControls s).wasPausedBeforeFocus = s.wasPausedBeforeFocus := by
  unfold addHoverAndFocusControls
  split <;> rfl

@[simp]
theorem addAccessibilityControls_dataHovered (s : St) (buttonWidth : Int) :
    (addAccessibilityControls s buttonWidth).dataHovered = s.dataHovered := by
  unfold addAccessibilityControls setLocalStorage
  split
  · rfl
  · split <;> rfl

@[simp]
theorem addAccessibilityControls_dataFocused (s : St) (buttonWidth : Int) :
    (addAccessibilityControls s buttonWidth).dataFocused = s.dataFocused := by
  unfold addAccessibilityControls setLocalStorage
  split
  · rfl
  · split <;> rfl

@[simp]
theorem addAccessibilityControls_wasPausedBeforeFocus (s : St) (buttonWidth : Int) :
    (addAccessibilityControls s buttonWidth).wasPausedBeforeFocus = s.wasPausedBeforeFocus := by
  unfold addAccessibilityControls setLocalStorage
  split
  · rfl
  · split <;> rfl

@[simp]
theorem onclick_dataHovered (s : St) (pauseButton : Button) (newButtonWidth : Int) :
    (onclick s pauseButton newButtonWidth).dataHovered = s.dataHovered := by
  unfold onclick setLocalStorage
  by_cases h1 : newButtonWidth > FALLBACK_MIN_WIDTH <;> by_cases h2 : s.donorTicker = true <;>
    simp [h1, h2]

@[simp]
theorem onclick_dataFocused (s : St) (pauseButton : Button) (newButtonWidth : Int) :
    (onclick s pauseButton newButtonWidth).dataFocused = s.dataFocused := by
  unfold onclick setLocalStorage
  by_cases h1 : newButtonWidth > FALLBACK_MIN_WIDTH <;> by_cases h2 : s.donorTicker = true <;>
    simp [h1, h2]

@[simp]
theorem onclick_wasPausedBeforeFocus (s : St) (pauseButton : Button) (newButtonWidth : Int) :
    (onclick s pauseButton newButtonWidth).wasPausedBeforeFocus = s.wasPausedBeforeFocus := by
  unfold onclick setLocalStorage
  by_cases h1 : newButtonWidth > FALLBACK_MIN_WIDTH <;> by_cases h2 : s.donorTicker = true <;>
    simp [h1, h2]

@[simp]
theorem intervalCallback_dataHovered (s : St) (c : ScrollState) :
    (intervalCallback s c).dataHovered = s.dataHovered := by
  unfold intervalCallback
  split <;> rfl

@[simp]
theorem intervalCallback_dataFocused (s : St) (c : ScrollState) :
    (intervalCallback s c).dataFocused = s.dataFocused := by
  unfold intervalCallback
  split <;> rfl

@[simp]
theorem intervalCallback_wasPausedBeforeFocus (s : St) (c : ScrollState) :
    (intervalCallback s c).wasPausedBeforeFocus = s.wasPausedBeforeFocus := by
  unfold intervalCallback
  split <;> rfl

@[simp]
theorem intervalCallback_localStorage (s : St) (c : ScrollState) :
    (intervalCallback s c).localStorage = s.localStorage := by
  unfold intervalCallback
  split <;> rfl

@[simp]
theorem intervalCallback_prefersReducedMotion (s : St) (c : ScrollState) :
    (intervalCallback s c).prefersReducedMotion = s.prefersReducedMotion := by
  unfold intervalCallback
  split <;> rfl

/-! ## Pause sources -/

@[simp]
theorem assignFields_dataHovered (page : Page) (store : Storage) (prm : Bool) :
    (assignFields page store prm).dataHovered = none := by
  unfold assignFields blank
  dsimp only
  split_ifs <;> rfl

@[simp]
theorem assignFields_dataFocused (page : Page) (store : Storage) (prm : Bool) :
    (assignFields page store prm).dataFocused = none := by
  unfold assignFields blank
  dsimp only
  split_ifs <;> rfl

theorem startScrolling_sources (s : St) (env : Env) (s1 : St)
    (h : startScrolling s env = .ok s1) :
    s1.dataHovered = s.dataHovered ∧ s1.dataFocused = s.dataFocused := by
  unfold startScrolling at h
  cases hT : s.donorTicker with
  | false => simp [hT] at h
  | true =>
    cases hS : s.strip with
    | false =>
      simp only [hT, hS, Bool.not_true, Bool.not_false, Bool.false_eq_true, if_false,
        if_true, Except.ok.injEq] at h
      subst h
      exact ⟨rfl, rfl⟩
    | true =>
      simp only [hT, hS, Bool.not_true, Bool.false_eq_true, if_false, Except.ok.injEq] at h
      subst h
      exact ⟨rfl, rfl⟩

theorem startupSequence_sources (s : St) (env : Env) (s1 : St)
    (h : startupSequence s env = .ok s1) :
    s1.dataHovered = s.dataHovered ∧ s1.dataFocused = s.dataFocused ∧
      s1.prefersReducedMotion = s.prefersReducedMotion ∧
      getLocalStorage s1 "tickerState" = getLocalStorage s "tickerState" := by
  have hK := addAccessibilityControls_tickerState
    (addStyles (displayDonations (createTickerContainer s) env.display)) env.buttonWidth
  have hL : getLocalStorage (addStyles (displayDonations (createTickerContainer s) env.display))
      = getLocalStorage s := by
    funext key; simp [getLocalStorage]
  rw [hL] at hK
  unfold startupSequence at h
  simp only [] at h
  split at h
  · obtain ⟨_, _, h3, _, _, _, h7, _⟩ := startScrolling_fields _ env s1 h
    obtain ⟨h8, h9⟩ := startScrolling_sources _ env s1 h
    refine ⟨by simpa using h8, by simpa using h9, by simpa using h3, ?_⟩
    rw [← hK]
    simp [getLocalStorage, h7]
  · simp only [Except.ok.injEq] at h
    subst h
    refine ⟨by simp, by simp, by simp, ?_⟩
    rw [← hK]
    simp [getLocalStorage]

/-- On a page with a `.donor-list` or a `#donor-ticker`, both branches of `init`
amount to the start-up sequence on the freshly assigned fields. -/
theorem startup_eq_startupSequence (page : Page) (store : Storage) (prm : Bool) (env : Env)
    (h : page.donorList = true ∨ page.donorTicker = true) :
    startup page store prm env = startupSequence (assignFields page store prm) env := by
  have hne : (!page.donorList && !page.donorTicker) = false := by
    rcases h with h | h <;> simp [h]
  have hstate : ({ ({ assignFields page store prm with domContentLoadedListener := true } : St)
      with domContentLoadedListener := false } : St) = assignFields page store prm := by
    have hl := assignFields_domContentLoadedListener page store prm
    cases hA : assignFields page store prm
    rw [hA] at hl
    simp only [] at hl
    simp [hl]
  unfold startup new init
  rw [hne]
  simp only [Bool.false_eq_true, if_false]
  cases hL : page.loading with
  | true =>
    simp only [if_true, step]
    rw [hstate]
  | false =>
    simp only [Bool.false_eq_true, if_false]
    cases hs : startupSequence (assignFields page store prm) env with
    | error err => rfl
    | ok s1 =>
      obtain ⟨_, hl, _⟩ := startupSequence_fields _ env s1 hs
      have hl1 : s1.domContentLoadedListener = false := by simpa using hl
      simp only [step, hl1, Bool.false_eq_true, if_false]

theorem focusout_fields (s : St) :
    (focusout s).donorTicker = s.donorTicker ∧
      (focusout s).domContentLoadedListener = s.domContentLoadedListener ∧
      (focusout s).prefersReducedMotion = s.prefersReducedMotion ∧
      (focusout s).dataHovered = s.dataHovered ∧
      (focusout s).localStorage = s.localStorage ∧
      (focusout s).dataFocused = some "false" := by
  unfold focusout
  dsimp only
  split_ifs <;> exact ⟨rfl, rfl, rfl, rfl, rfl, rfl⟩

/-- While the pause sources are kept apart, every event keeps `data-playing`
and the pause flag equal to the OR of manual pause, hover and focus. -/
theorem step_sources (env : Env) (s : St) (e : Event) (h : sourcesAgree s)
    (ha : separate s e = true) :
    ∃ s1, step env s e = .ok s1 ∧ sourcesAgree s1 := by
  obtain ⟨h1, h2, h3, h4, h5, h6⟩ := h
  cases e with
  | domContentLoaded =>
    simp only [step, h2, Bool.false_eq_true, if_false]
    exact ⟨s, rfl, h1, h2, h3, h4, h5, h6⟩
  | click w =>
    simp only [separate, Bool.and_eq_true, Bool.not_eq_true'] at ha
    obtain ⟨hh, hf⟩ := ha
    simp only [step]
    cases hb : s.button with
    | none => exact ⟨s, rfl, h1, h2, h3, h4, h5, h6⟩
    | some b =>
      have hm : manualPause (onclick s b w) = !s.isPaused := by
        unfold manualPause
        rw [onclick_tickerState]
        cases s.isPaused <;> decide
      have hh1 : hovered (onclick s b w) = false := by
        unfold hovered at hh ⊢; simpa using hh
      have hf1 : focused (onclick s b w) = false := by
        unfold focused at hf ⊢; simpa using hf
      refine ⟨_, rfl, by simp [h1], by simp [h2], by simp [h3], ?_, ?_, ?_⟩
      · rw [onclick_dataPlaying s b w h1, onclick_isPaused]
        cases s.isPaused <;> rfl
      · rw [hm, hh1, hf1, onclick_isPaused]; simp
      · intro hf2; rw [hf1] at hf2; exact absurd hf2 (by decide)
  | mouseenter =>
    simp only [separate, Bool.not_eq_true'] at ha
    simp only [step]
    split_ifs
    · refine ⟨_, rfl, h1, h2, h3, rfl, ?_, ?_⟩
      · simp [mouseenter, hovered, manualPause, getLocalStorage]
      · intro hf2
        have : focused (mouseenter s) = focused s := rfl
        rw [this, ha] at hf2
        exact absurd hf2 (by decide)
    · exact ⟨_, rfl, h1, h2, h3, h4, h5, h6⟩
  | mouseleave =>
    simp only [separate, Bool.and_eq_true, Bool.not_eq_true'] at ha
    obtain ⟨hf, hm⟩ := ha
    simp only [step]
    split_ifs
    · have hm1 : manualPause (mouseleave s) = false := hm
      have hf1 : focused (mouseleave s) = false := hf
      have hh1 : hovered (mouseleave s) = false := by
        simp [hovered, mouseleave]
      refine ⟨_, rfl, h1, h2, h3, rfl, ?_, ?_⟩
      · rw [hm1, hf1, hh1]; rfl
      · intro hf2; rw [hf1] at hf2; exact absurd hf2 (by decide)
    · exact ⟨_, rfl, h1, h2, h3, h4, h5, h6⟩
  | focusin =>
    simp only [separate, Bool.not_eq_true'] at ha
    simp only [step]
    split_ifs
    · have hm1 : manualPause (focusin s) = manualPause s := rfl
      have hh1 : hovered (focusin s) = hovered s := rfl
      have hf1 : focused (focusin s) = true := by simp [focused, focusin]
      refine ⟨_, rfl, h1, h2, h3, rfl, ?_, ?_⟩
      · rw [hf1]; simp [focusin]
      · intro _
        rw [hm1, hh1]
        show s.isPaused = _
        rw [h5, ha]; simp
    · exact ⟨_, rfl, h1, h2, h3, h4, h5, h6⟩
  | focusout =>
    simp only [separate] at ha
    have hw := h6 ha
    simp only [step]
    split_ifs
    · obtain ⟨g1, g2, g3, g4, g5, g6⟩ := focusout_fields s
      have hm1 : manualPause (focusout s) = manualPause s := by
        simp [manualPause, getLocalStorage, g5]
      have hh1 : hovered (focusout s) = hovered s := by simp [hovered, g4]
      have hf1 : focused (focusout s) = false := by simp [focused, g6]
      refine ⟨_, rfl, g1.trans h1, g2.trans h2, g3.trans h3, ?_, ?_, ?_⟩
      · cases hwas : s.wasPausedBeforeFocus with
        | false => simp [focusout, hwas]
        | true => simp [focusout, hwas, h4]
      · rw [hm1, hh1, hf1]
        cases hwas : s.wasPausedBeforeFocus with
        | false =>
          rw [hwas] at hw
          rw [← hw]
          simp [focusout, hwas]
        | true =>
          rw [hwas] at hw
          rw [← hw]
          have : (focusout s).isPaused = s.isPaused := by simp [focusout, hwas]
          rw [this, h5, ← hw, ha]
          rfl
      · intro hf2; rw [hf1] at hf2; exact absurd hf2 (by decide)
    · exact ⟨_, rfl, h1, h2, h3, h4, h5, h6⟩
  | timer =>
    simp only [step]
    cases s.scrollInterval with
    | none => exact ⟨s, rfl, h1, h2, h3, h4, h5, h6⟩
    | some c =>
      have hm1 : manualPause (intervalCallback s c) = manualPause s := by
        simp [manualPause, getLocalStorage]
      have hh1 : hovered (intervalCallback s c) = hovered s := by simp [hovered]
      have hf1 : focused (intervalCallback s c) = focused s := by simp [focused]
      refine ⟨_, rfl, by simp [h1], by simp [h2], by simp [h3], by simp [h4], ?_, ?_⟩
      · rw [hm1, hh1, hf1]; simpa using h5
      · rw [hm1, hh1, hf1]; simpa using h6

theorem run_sources (env : Env) :
    ∀ (events : List Event) (s : St), sourcesAgree s → separateRun env s events = true →
      ∃ s1, run env s events = .ok s1 ∧ sourcesAgree s1 := by
  intro events
  induction events with
  | nil => intro s h _; exact ⟨s, rfl, h⟩
  | cons e es ih =>
    intro s h ha
    simp only [separateRun, Bool.and_eq_true] at ha
    obtain ⟨s2, hs, h2⟩ := step_sources env s e h ha.1
    have ha2 := ha.2
    rw [hs] at ha2
    obtain ⟨s1, hr, h1⟩ := ih s2 h2 ha2
    exact ⟨s1, by simp only [run, hs]; exact hr, h1⟩

theorem startup_sourcesAgree (page : Page) (store : Storage) (env : Env)
    (hT : page.donorTicker = true) :
    ∃ s0, startup page store false env = .ok s0 ∧ sourcesAgree s0 := by
  obtain ⟨s0, h0, h1, h2, h3, h4, _⟩ := startup_ticker page store false env hT
  have hseq := h0
  rw [startup_eq_startupSequence page store false env (Or.inr hT)] at hseq
  obtain ⟨h5, h6, h7, h8⟩ := startupSequence_sources _ env s0 hseq
  have hm : manualPause s0 = decide (store.lookup "tickerState" = some "paused") := by
    unfold manualPause
    rw [h8]
    simp [getLocalStorage]
  have hh : hovered s0 = false := by simp [hovered, h5]
  have hf : focused s0 = false := by simp [focused, h6]
  refine ⟨s0, h0, h1, h2, by simpa using h7, h4 rfl, ?_, ?_⟩
  · rw [hm, hh, hf, h3]; simp
  · intro hf2; rw [hf] at hf2; exact absurd hf2 (by decide)

/-! ## Claims -/

/-- C1: for a non-empty donor list, any day (hence any seed), any target count
`n ≥ 1` and any shuffle that returns a permutation of its argument, `getDonors`
returns: with fuel `n` or more the loop ends, always with the same list, which
has exactly `n` entries, each an element of the donor list; for a one-element
donor list it is `n` copies of that element. -/
theorem getDonors_returns_n_donors {α : Type} (shuffle : List α → Nat → List α)
    (hperm : ∀ (l : List α) (seed : Nat), (shuffle l seed).Perm l)
    (donors : List α) (hne : donors ≠ []) (day n : Nat) (hn : 1 ≤ n) :
    ∃ r, (∀ fuel, n ≤ fuel → getDonors shuffle donors day n fuel = some r) ∧
      r.length = n ∧ (∀ x ∈ r, x ∈ donors) ∧
      (∀ a, donors = [a] → r = List.replicate n a) := by
  have hlen : 0 < donors.length := List.length_pos.mpr hne
  have hk : 0 < (shuffle donors (getSeed day)).length := by
    rw [(hperm donors (getSeed day)).length_eq]; exact hlen
  have hsub : ∀ x ∈ shuffle donors (getSeed day), x ∈ donors :=
    fun x hx => (hperm donors (getSeed day)).mem_iff.mp hx
  obtain ⟨d, hd, hdlen, hdmem⟩ :=
    getDonorsLoop_spec shuffle donors (getSeed day) n hk hsub (n - 1) donors (by omega)
  have hfuel : n - 1 + 1 = n := by omega
  rw [hfuel] at hd
  have hmem : ∀ x ∈ (shuffle d (getSeed day)).take n, x ∈ donors := by
    intro x hx
    have h1 : x ∈ d := (hperm d (getSeed day)).mem_iff.mp (List.mem_of_mem_take hx)
    rcases hdmem x h1 with h2 | h2 <;> exact h2
  have hl : ((shuffle d (getSeed day)).take n).length = n := by
    rw [List.length_take, (hperm d (getSeed day)).length_eq]; omega
  refine ⟨(shuffle d (getSeed day)).take n, ?_, hl, hmem, ?_⟩
  · intro fuel hle
    have := getDonorsLoop_mono_le shuffle donors (getSeed day) n n fuel donors d hle hd
    simp [getDonors, this]
  · intro a ha
    refine List.eq_replicate_iff.mpr ⟨hl, fun b hb => ?_⟩
    have := hmem b hb
    rw [ha] at this
    simpa using this

/-- C1 at the scenario of the specification: two donors, target 5, the
shuffle that reverses its argument. -/
theorem getDonors_returns_n_donors_witness :
    ∃ r, (∀ fuel, 5 ≤ fuel →
        getDonors (fun (l : List String) (_ : Nat) => l.reverse)
          ["A chipped in $1", "B chipped in $2"] 14 5 fuel = some r) ∧
      r.length = 5 ∧ (∀ x ∈ r, x ∈ ["A chipped in $1", "B chipped in $2"]) ∧
      (∀ a, ["A chipped in $1", "B chipped in $2"] = [a] → r = List.replicate 5 a) :=
  getDonors_returns_n_donors (fun (l : List String) (_ : Nat) => l.reverse)
    (fun l _ => List.reverse_perm l) ["A chipped in $1", "B chipped in $2"]
    (by simp) 14 5 (by decide)

/-- C2 at a failing input: a page with a `.donor-list` and no `#donor-ticker`,
reduced motion off.  In the ready branch the constructor itself throws from
`startScrolling`; in the loading branch the constructor returns and the
`DOMContentLoaded` listener throws.  The claim says both start up as a no-op. -/
theorem startup_throws_without_ticker :
    new pageWithoutTicker [] false sampleEnv =
      .error "TypeError: tickerContainer is null" ∧
    startup { pageWithoutTicker with loading := true } [] false sampleEnv =
      .error "TypeError: tickerContainer is null" :=
  ⟨rfl, rfl⟩

/-- C3 at a failing input: after start-up on a page with a ticker, a click on
the toggle pauses the ticker and stores "paused"; a pointer-enter followed by a
pointer-leave then leaves the pause flag false and `data-playing` "true",
while the button still reads "Play" and the stored state is still "paused".
The claim says the ticker stays paused. -/
theorem hover_resumes_manual_pause :
    ∃ s1 s3,
      lifecycle samplePage [] false sampleEnv [.click 90] = .ok s1 ∧
      s1.isPaused = true ∧ getLocalStorage s1 "tickerState" = some "paused" ∧
      s1.dataPlaying = some "false" ∧
      run sampleEnv s1 [.mouseenter, .mouseleave] = .ok s3 ∧
      s3.isPaused = false ∧ s3.dataPlaying = some "true" ∧
      getLocalStorage s3 "tickerState" = some "paused" ∧
      s3.button.map (fun b => b.innerText) = some "Play" :=
  ⟨_, _, rfl, rfl, rfl, rfl, rfl, rfl, rfl, rfl, rfl⟩

/-- C4: with the listeners installed, in every state (hovered or not), a
focus-in pauses the ticker and the following focus-out restores the pause flag
that the focus-in found, with `data-playing` mirroring it: a playing ticker is
playing again and a paused ticker is still paused. -/
theorem focus_revert (env : Env) (s : St) (hl : s.hoverFocusListeners = true) :
    ∃ s1 s2, step env s .focusin = .ok s1 ∧ step env s1 .focusout = .ok s2 ∧
      s1.isPaused = true ∧ s1.dataPlaying = some "false" ∧
      s2.isPaused = s.isPaused ∧
      s2.dataPlaying = some (if s.isPaused then "false" else "true") := by
  refine ⟨focusin s, focusout (focusin s), ?_, ?_, rfl, rfl, ?_, ?_⟩
  · simp [step, hl]
  · simp [step, focusin, hl]
  · cases h : s.isPaused <;> simp [focusout, focusin, h]
  · cases h : s.isPaused <;> simp [focusout, focusin, h]

/-- C4 at the state start-up leaves on the sample page: playing, not hovered. -/
theorem focus_revert_witness :
    ∃ s1 s2, step sampleEnv sampleState .focusin = .ok s1 ∧
      step sampleEnv s1 .focusout = .ok s2 ∧
      s1.isPaused = true ∧ s1.dataPlaying = some "false" ∧
      s2.isPaused = sampleState.isPaused ∧
      s2.dataPlaying = some (if sampleState.isPaused then "false" else "true") :=
  focus_revert sampleEnv sampleState rfl

/-- C5: a click on the toggle (in any state with a button, hovered or focused
or not) flips the pause flag and stores "paused" exactly when the new flag is
true and "playing" otherwise; a fresh instance reading that storage gets the
same flag from the controls initialiser, from `startScrolling`, and from the
whole start-up on any page with a ticker. -/
theorem toggle_persists (env : Env) (s : St) (newButtonWidth : Int) (b : Button)
    (hb : s.button = some b) :
    ∃ s1, step env s (.click newButtonWidth) = .ok s1 ∧ s1.isPaused = (!s.isPaused) ∧
      getLocalStorage s1 "tickerState" = some (if s1.isPaused then "paused" else "playing") ∧
      (∀ (f : St) (buttonWidth : Int), f.localStorage = s1.localStorage →
        f.tickerContainer = true →
        (addAccessibilityControls f buttonWidth).isPaused = s1.isPaused) ∧
      (∀ (f : St) (env1 : Env), f.localStorage = s1.localStorage → f.donorTicker = true →
        f.strip = true → ∃ f1, startScrolling f env1 = .ok f1 ∧ f1.isPaused = s1.isPaused) ∧
      (∀ (page : Page) (prm : Bool) (env1 : Env), page.donorTicker = true →
        ∃ f, startup page s1.localStorage prm env1 = .ok f ∧ f.isPaused = s1.isPaused) := by
  have hk := onclick_tickerState s b newButtonWidth
  have hd : decide (getLocalStorage (onclick s b newButtonWidth) "tickerState" = some "paused")
      = !s.isPaused := by
    rw [hk]; cases s.isPaused <;> decide
  refine ⟨onclick s b newButtonWidth, by simp [step, hb], by simp, ?_, ?_, ?_, ?_⟩
  · rw [hk, onclick_isPaused]; cases s.isPaused <;> rfl
  · intro f bw hf hc
    rw [addAccessibilityControls_paused f bw hc, onclick_isPaused, ← hd]
    simp [getLocalStorage, hf]
  · intro f env1 hf hT hS
    obtain ⟨f1, h1, h2, _⟩ := startScrolling_ok f env1 hT hS
    refine ⟨f1, h1, ?_⟩
    rw [h2, onclick_isPaused, ← hd]
    simp [getLocalStorage, hf]
  · intro page prm env1 hT
    obtain ⟨f, h1, _, _, h2, _⟩ := startup_ticker page _ prm env1 hT
    refine ⟨f, h1, ?_⟩
    rw [h2, onclick_isPaused, ← hd]
    simp [getLocalStorage]

/-- C5 at the state start-up leaves on the sample page: one click from the
initial playing state. -/
theorem toggle_persists_witness :
    ∃ s1, step sampleEnv sampleState (.click 90) = .ok s1 ∧
      s1.isPaused = (!sampleState.isPaused) ∧
      getLocalStorage s1 "tickerState" = some (if s1.isPaused then "paused" else "playing") ∧
      (∀ (f : St) (buttonWidth : Int), f.localStorage = s1.localStorage →
        f.tickerContainer = true →
        (addAccessibilityControls f buttonWidth).isPaused = s1.isPaused) ∧
      (∀ (f : St) (env1 : Env), f.localStorage = s1.localStorage → f.donorTicker = true →
        f.strip = true → ∃ f1, startScrolling f env1 = .ok f1 ∧ f1.isPaused = s1.isPaused) ∧
      (∀ (page : Page) (prm : Bool) (env1 : Env), page.donorTicker = true →
        ∃ f, startup page s1.localStorage prm env1 = .ok f ∧ f.isPaused = s1.isPaused) :=
  toggle_persists sampleEnv sampleState 90
    { innerText := "Pause", ariaLabel := "Pause scrolling", minWidth := some 90 } rfl

/-- C6: the body of the interval callback equals the reference tick at scroll
speed 1, for every pause flag, offset and pair of widths; and in every state
the class reaches, a timer firing moves the offset exactly as the reference
tick does, and changes nothing at all when the pause flag is set. -/
theorem tick_eq_tickReference :
    (∀ (isPaused : Bool) (c : ScrollState),
      tick isPaused 1 c =
        ⟨tickReference isPaused c.currentScroll c.contentWidth c.containerWidth,
          c.containerWidth, c.contentWidth⟩) ∧
    (∀ (page : Page) (store : Storage) (prefersReducedMotion : Bool) (env : Env)
        (events : List Event) (s : St) (c : ScrollState),
      lifecycle page store prefersReducedMotion env events = .ok s →
      s.scrollInterval = some c →
      ∃ s1, step env s .timer = .ok s1 ∧
        s1.scrollInterval =
          some ⟨tickReference s.isPaused c.currentScroll c.contentWidth c.containerWidth,
            c.containerWidth, c.contentWidth⟩ ∧
        (s.isPaused = true → s1 = s)) := by
  have hpure : ∀ (isPaused : Bool) (c : ScrollState),
      tick isPaused 1 c =
        ⟨tickReference isPaused c.currentScroll c.contentWidth c.containerWidth,
          c.containerWidth, c.contentWidth⟩ := by
    intro isPaused c
    cases isPaused with
    | true => rw [tick_paused]; simp [tickReference]
    | false => rw [tick_unpaused]; simp [tickReference]
  refine ⟨hpure, ?_⟩
  intro page store prm env events s c hrun hc
  have hspeed : s.scrollSpeed = 1 := by
    unfold lifecycle at hrun
    cases hn : new page store prm env with
    | error err => rw [hn] at hrun; simp at hrun
    | ok s0 =>
      rw [hn] at hrun
      have := run_preserves env
        (fun t => t.scrollSpeed = 1 ∨ (t.domContentLoadedListener = false ∧ t.scrollInterval = none))
        (fun t e t1 ht hs => step_speed env t e t1 ht hs) events s0 s
        (new_speed page store prm env s0 hn) hrun
      rcases this with h | ⟨_, h⟩
      · exact h
      · rw [hc] at h; exact absurd h (by simp)
  refine ⟨intervalCallback s c, by simp [step, hc], ?_, ?_⟩
  · cases hp : s.isPaused with
    | true => simp [intervalCallback, hp, hc, tickReference]
    | false => simp [intervalCallback, hp, hspeed, hpure]
  · intro hp
    simp [intervalCallback, hp]

/-- C6 on the sample page: after a pointer-enter the ticker is paused, a timer
is installed, and a timer firing changes nothing. -/
theorem tick_eq_tickReference_witness :
    ∃ s c, lifecycle samplePage [] false sampleEnv [.mouseenter] = .ok s ∧
      s.scrollInterval = some c ∧ s.isPaused = true ∧
      ∃ s1, step sampleEnv s .timer = .ok s1 ∧
        s1.scrollInterval =
          some ⟨tickReference s.isPaused c.currentScroll c.contentWidth c.containerWidth,
            c.containerWidth, c.contentWidth⟩ ∧
        (s.isPaused = true → s1 = s) :=
  ⟨_, _, rfl, rfl, rfl,
    tick_eq_tickReference.2 samplePage [] false sampleEnv [.mouseenter] _ _ rfl rfl⟩

/-- C7 at a failing input: 3200 px of content in a 3840 px container.  From
the state start-up leaves, 3199 timer firings bring the offset to -3199, the
next one wraps it to 3840, and the one after that resets it to 3840 again;
the claim says it records 3839. -/
theorem wrap_repeats_in_wide_container :
    ∃ s0 s1 s2 s3,
      startup samplePage [] false wideEnv = .ok s0 ∧
      run wideEnv s0 (List.replicate 3199 Event.timer) = .ok s1 ∧
      s1.scrollInterval = some ⟨-3199, 3840, 3200⟩ ∧
      step wideEnv s1 .timer = .ok s2 ∧ s2.scrollInterval = some ⟨3840, 3840, 3200⟩ ∧
      step wideEnv s2 .timer = .ok s3 ∧ s3.scrollInterval = some ⟨3840, 3840, 3200⟩ ∧
      s3.stripTransform = some 3840 ∧
      tick false 1 ⟨3840, 3840, 3200⟩ = ⟨3840, 3840, 3200⟩ := by
  obtain ⟨s1, hrun, hint, hp, hs⟩ :=
    run_timer_advance wideEnv 3199 wideState ⟨0, 3840, 3200⟩ rfl rfl rfl (by decide) (by decide)
  have h2 : (intervalCallback s1 ⟨-3199, 3840, 3200⟩).scrollInterval =
      some ⟨3840, 3840, 3200⟩ := by
    simp [intervalCallback, hp, hs, tick]
  refine ⟨wideState, s1, intervalCallback s1 ⟨-3199, 3840, 3200⟩,
    intervalCallback (intervalCallback s1 ⟨-3199, 3840, 3200⟩) ⟨3840, 3840, 3200⟩,
    rfl, hrun, by simpa using hint, ?_, h2, ?_, ?_, ?_, ?_⟩
  · have : s1.scrollInterval = some ⟨-3199, 3840, 3200⟩ := by simpa using hint
    simp [step, this]
  · simp [step, h2]
  · simp [intervalCallback, hp, hs, tick]
  · simp [intervalCallback, hp, hs, tick]
  · simp [tick]

/-- C8: with the reduced-motion preference true at construction, for every
page (either ready-state branch), every storage and every sequence of events,
including `DOMContentLoaded`, clicks, hover, focus and timer firings, no
listener throws, no timer is ever installed and the strip is never
translated. -/
theorem reduced_motion_never_scrolls (page : Page) (store : Storage) (env : Env)
    (events : List Event) :
    ∃ s, lifecycle page store true env events = .ok s ∧ s.scrollInterval = none ∧
      s.stripTransform = none := by
  obtain ⟨s0, h0, hinv⟩ := new_reduced page store env
  obtain ⟨s, hs, h1, h2, _⟩ := run_total env
    (fun t => t.scrollInterval = none ∧ t.stripTransform = none ∧
      (t.domContentLoadedListener = true → t.prefersReducedMotion = true))
    (fun t e ht => step_reduced env t e ht) events s0 hinv
  exact ⟨s, by simp only [lifecycle, h0]; exact hs, h1, h2⟩

/-- C9, counterexample: on the sample page, each of these runs ends with
`data-playing` different from the negation of effective pause.  With reduced
motion on, start-up leaves the attribute unset.  With reduced motion off the
attribute reads "true" while a manual pause (click, enter, leave; or click,
focus-out), a focus (focus-in, enter, leave; or focus-in, click) or a hover
(enter, click; or focus-in, enter, focus-out) is in effect, and reads "false"
after focus-in, focus-in, focus-out when no source is in effect. -/
theorem data_playing_differs_from_effective_pause :
    (∃ s, startup samplePage [] true sampleEnv = .ok s ∧ effectivePaused s = true ∧
      s.dataPlaying = none) ∧
    (∃ s, lifecycle samplePage [] false sampleEnv [.click 90, .mouseenter, .mouseleave]
        = .ok s ∧ manualPause s = true ∧ effectivePaused s = true ∧
      s.dataPlaying = some "true") ∧
    (∃ s, lifecycle samplePage [] false sampleEnv [.click 90, .focusout] = .ok s ∧
      manualPause s = true ∧ effectivePaused s = true ∧ s.dataPlaying = some "true") ∧
    (∃ s, lifecycle samplePage [] false sampleEnv [.focusin, .mouseenter, .mouseleave]
        = .ok s ∧ focused s = true ∧ effectivePaused s = true ∧
      s.dataPlaying = some "true") ∧
    (∃ s, lifecycle samplePage [] false sampleEnv [.focusin, .click 90] = .ok s ∧
      focused s = true ∧ effectivePaused s = true ∧ s.dataPlaying = some "true") ∧
    (∃ s, lifecycle samplePage [] false sampleEnv [.mouseenter, .click 90] = .ok s ∧
      hovered s = true ∧ effectivePaused s = true ∧ s.dataPlaying = some "true") ∧
    (∃ s, lifecycle samplePage [] false sampleEnv [.focusin, .mouseenter, .focusout]
        = .ok s ∧ hovered s = true ∧ effectivePaused s = true ∧
      s.dataPlaying = some "true") ∧
    (∃ s, lifecycle samplePage [] false sampleEnv [.focusin, .focusin, .focusout] = .ok s ∧
      effectivePaused s = false ∧ s.dataPlaying = some "false") :=
  ⟨⟨_, rfl, rfl, rfl⟩, ⟨_, rfl, rfl, rfl, rfl⟩, ⟨_, rfl, rfl, rfl, rfl⟩,
    ⟨_, rfl, rfl, rfl, rfl⟩, ⟨_, rfl, rfl, rfl, rfl⟩, ⟨_, rfl, rfl, rfl, rfl⟩,
    ⟨_, rfl, rfl, rfl, rfl⟩, ⟨_, rfl, rfl, rfl⟩⟩

/-- C9, amended: on a page with a `#donor-ticker` and with reduced motion off,
start-up completes for every storage, and after any sequence of events that
keeps the pause sources apart (focus-in and focus-out alternate; no click,
pointer-enter or pointer-leave while focused; no click while hovered; no
pointer-leave while manually paused) `data-playing` is "true" exactly when the
ticker is not effectively paused (manual pause OR hovered OR focused OR reduced
motion) and "false" exactly when it is. -/
theorem data_playing_mirrors_effective_pause (page : Page) (store : Storage) (env : Env)
    (events : List Event) (hT : page.donorTicker = true) :
    ∃ s0, startup page store false env = .ok s0 ∧
      (separateRun env s0 events = true →
        ∃ s, run env s0 events = .ok s ∧
          (s.dataPlaying = some "true" ↔ effectivePaused s = false) ∧
          (s.dataPlaying = some "false" ↔ effectivePaused s = true)) := by
  obtain ⟨s0, h0, hinv⟩ := startup_sourcesAgree page store env hT
  refine ⟨s0, h0, fun hsep => ?_⟩
  obtain ⟨s, hs, _, _, h3, h4, h5, _⟩ := run_sources env events s0 hinv hsep
  have he : effectivePaused s = s.isPaused := by
    unfold effectivePaused
    rw [h3, ← h5]
    simp
  refine ⟨s, hs, ?_, ?_⟩ <;> (rw [h4, he]; cases s.isPaused <;> decide)

/-- C9, amended, on the sample page: a manual pause with a focus episode inside
it, then a resume, then a hover with a focus episode inside it. -/
theorem data_playing_mirrors_effective_pause_witness :
    ∃ s0, startup samplePage [] false sampleEnv = .ok s0 ∧
      separateRun sampleEnv s0
        [.click 90, .focusin, .timer, .focusout, .click 90, .mouseenter, .focusin,
          .focusout, .mouseleave] = true ∧
      ∃ s, run sampleEnv s0
          [.click 90, .focusin, .timer, .focusout, .click 90, .mouseenter, .focusin,
            .focusout, .mouseleave] = .ok s ∧
        (s.dataPlaying = some "true" ↔ effectivePaused s = false) ∧
        (s.dataPlaying = some "false" ↔ effectivePaused s = true) := by
  obtain ⟨s0, h0, h⟩ := data_playing_mirrors_effective_pause samplePage [] sampleEnv
    [.click 90, .focusin, .timer, .focusout, .click 90, .mouseenter, .focusin,
      .focusout, .mouseleave] rfl
  have hs : s0 = sampleState := by
    have h1 := h0.symm.trans startup_samplePage
    simpa using h1
  subst hs
  exact ⟨sampleState, h0, rfl, h rfl⟩

/-- C10, counterexample: a stored "9007199254740993" (2^53 + 1) is read as the
double 9007199254740992, so the min-width set is not the stored integer; and a
stored 1 followed by 399 zeros is read as `Infinity`, passes the test of line
220, and line 221 assigns "Infinitypx", which is dropped, so start-up leaves
the button (measured at 60 px) with no min-width at all. -/
theorem stored_min_width_not_adopted :
    initialMinWidth (parseInt (some "9007199254740993")) = some 9007199254740992 ∧
    initialMinWidth (parseInt (some (String.mk ('1' :: List.replicate 399 '0')))) = none ∧
    ∃ s b, startup samplePage
        [("buttonMinWidth", String.mk ('1' :: List.replicate 399 '0'))] false
        { sampleEnv with buttonWidth := 60 } = .ok s ∧
      s.button = some b ∧ b.minWidth = none := by
  obtain ⟨h1, h2⟩ := parseInt_rounds
  refine ⟨by rw [h1]; rfl, by rw [h2]; rfl, ?_⟩
  obtain ⟨s, h0, _, _, _, _, b, hb, hw⟩ := startup_ticker samplePage
    [("buttonMinWidth", String.mk ('1' :: List.replicate 399 '0'))] false
    { sampleEnv with buttonWidth := 60 } rfl
  refine ⟨s, b, h0, hb, ?_⟩
  rw [hw]
  have hl : ∀ value : String,
      List.lookup "buttonMinWidth" [("buttonMinWidth", value)] = some value := by
    intro value
    simp [List.lookup]
  rw [hl, h2]
  rfl

/-- C10, amended: a min-width set on the button before it is measured is never
below 75, whatever is stored under `buttonMinWidth`; it is exactly 75 when the
value is absent, empty or starts with a character that is not white space, a
sign or a digit; and when the value is the decimal text of an integer `k` of
magnitude below 2^53 it is `k` if `k ≥ 75` and 75 otherwise.  Start-up on a
page with a ticker completes whatever is stored, and the button ends with the
measured width when that exceeds 75 and with that first min-width otherwise.
Every value the class writes under `buttonMinWidth`, in any run, is the
decimal text of an integer greater than 75. -/
theorem button_min_width_floor :
    initialMinWidth (parseInt none) = some 75 ∧
    (∀ text : String,
      (text.toList = [] ∨ ∃ c rest, text.toList = c :: rest ∧
        isStrWhiteSpaceChar c = false ∧ c ≠ '-' ∧ c ≠ '+' ∧ c.isDigit = false) →
      initialMinWidth (parseInt (some text)) = some 75) ∧
    (∀ k : Int, k.natAbs < 2 ^ 53 →
      initialMinWidth (parseInt (some (toString k))) = some (if 75 ≤ k then k else 75)) ∧
    (∀ (stored : Option String) (m : Int),
      initialMinWidth (parseInt stored) = some m → 75 ≤ m) ∧
    (∀ (page : Page) (store : Storage) (prm : Bool) (env : Env), page.donorTicker = true →
      ∃ s b, startup page store prm env = .ok s ∧ s.button = some b ∧
        b.minWidth =
          (if env.buttonWidth > 75 then some env.buttonWidth
           else initialMinWidth (parseInt (store.lookup "buttonMinWidth")))) ∧
    (∀ (page : Page) (store : Storage) (prm : Bool) (env : Env) (events : List Event)
        (s : St), lifecycle page store prm env events = .ok s →
      ∀ value, ("buttonMinWidth", value) ∈ s.writes →
        ∃ w : Int, value = toString w ∧ 75 < w) := by
  refine ⟨rfl, ?_, ?_, ?_, ?_, ?_⟩
  · intro text h
    rw [parseInt_nonnumeric text h]
    rfl
  · intro k hk
    rw [parseInt_toString k hk]
    simp only [initialMinWidth, FALLBACK_MIN_WIDTH]
    by_cases h : 75 ≤ k
    · have h0 : k ≠ 0 := by omega
      simp [h, h0]
    · simp [h]
  · intro stored m hm
    cases hp : parseInt stored with
    | nan =>
      rw [hp] at hm
      simp only [initialMinWidth, FALLBACK_MIN_WIDTH, Option.some.injEq] at hm
      omega
    | finite w =>
      rw [hp] at hm
      simp only [initialMinWidth, FALLBACK_MIN_WIDTH] at hm
      split_ifs at hm with h
      · simp only [Option.some.injEq] at hm; omega
      · simp only [Option.some.injEq] at hm; omega
    | infinity negative =>
      rw [hp] at hm
      cases negative with
      | true =>
        simp only [initialMinWidth, FALLBACK_MIN_WIDTH, if_true, Option.some.injEq] at hm
        omega
      | false => simp [initialMinWidth] at hm
  · intro page store prm env hT
    obtain ⟨s, h0, _, _, _, _, b, hb, hw⟩ := startup_ticker page store prm env hT
    exact ⟨s, b, h0, hb, by simpa [FALLBACK_MIN_WIDTH] using hw⟩
  · intro page store prm env events s hrun
    unfold lifecycle at hrun
    cases hn : new page store prm env with
    | error err => rw [hn] at hrun; simp at hrun
    | ok s0 =>
      rw [hn] at hrun
      exact run_preserves env
        (fun t => ∀ value, ("buttonMinWidth", value) ∈ t.writes →
          ∃ w : Int, value = toString w ∧ FALLBACK_MIN_WIDTH < w)
        (fun t e t1 ht hs => step_writes env t e t1 ht hs) events s0 s
        (new_writes page store prm env s0 hn) hrun

/-- C10, amended, on sample values: the text of 120 is adopted and the text of
60 is replaced by 75; on the sample page a stored "120" is kept while the
button measures 60 px; and after start-up and a click measured at 90 px both
values written under `buttonMinWidth` are above 75. -/
theorem button_min_width_floor_witness :
    initialMinWidth (parseInt (some (toString (120 : Int)))) =
      some (if (75 : Int) ≤ 120 then 120 else 75) ∧
    initialMinWidth (parseInt (some (toString (60 : Int)))) =
      some (if (75 : Int) ≤ 60 then 60 else 75) ∧
    (∃ s b, startup samplePage [("buttonMinWidth", "120")] false
        { sampleEnv with buttonWidth := 60 } = .ok s ∧ s.button = some b ∧
      b.minWidth =
        (if ({ sampleEnv with buttonWidth := 60 } : Env).buttonWidth > 75 then
          some ({ sampleEnv with buttonWidth := 60 } : Env).buttonWidth
         else initialMinWidth
          (parseInt (List.lookup "buttonMinWidth" [("buttonMinWidth", "120")])))) ∧
    (∃ s, lifecycle samplePage [] false sampleEnv [.click 90] = .ok s ∧
      s.writes =
        [("tickerState", "paused"), ("buttonMinWidth", "90"), ("buttonMinWidth", "90")] ∧
      ∀ value, ("buttonMinWidth", value) ∈ s.writes →
        ∃ w : Int, value = toString w ∧ 75 < w) :=
  ⟨button_min_width_floor.2.2.1 120 (by decide),
    button_min_width_floor.2.2.1 60 (by decide),
    button_min_width_floor.2.2.2.2.1 samplePage [("buttonMinWidth", "120")] false
      { sampleEnv with buttonWidth := 60 } rfl,
    _, rfl, rfl,
    button_min_width_floor.2.2.2.2.2 samplePage [] false sampleEnv [.click 90] _ rfl⟩

/-! ## Further properties -/

/-- Start-up throws exactly on a page that has a `.donor-list` and no
`#donor-ticker` while reduced motion is off; on every other page, and with
reduced motion on, it completes. -/
theorem startup_throws_iff (page : Page) (store : Storage) (prm : Bool) (env : Env) :
    (∃ err, startup page store prm env = .error err) ↔
      (page.donorList = true ∧ page.donorTicker = false ∧ prm = false) := by
  cases hT : page.donorTicker with
  | true =>
    obtain ⟨s0, h0, _⟩ := startup_ticker page store prm env hT
    simp [h0]
  | false =>
    cases hD : page.donorList with
    | false => simp [startup, new, step, hT, hD, blank]
    | true =>
      cases hR : prm with
      | true =>
        obtain ⟨s0, h0, h1, h2, h3⟩ := new_reduced page store env
        obtain ⟨s1, h4, _⟩ := step_reduced env s0 .domContentLoaded ⟨h1, h2, h3⟩
        simp [startup, h0, h4]
      | false =>
        have hS : ∀ s : St, s.donorTicker = false → s.prefersReducedMotion = false →
            startupSequence s env = .error "TypeError: tickerContainer is null" :=
          fun s h1 h2 => startupSequence_without_ticker s env h1 h2
        cases hL : page.loading with
        | true =>
          simp only [startup, new, init, hT, hD, hL, Bool.not_true, Bool.not_false,
            Bool.false_and, Bool.false_eq_true, if_false, if_true, step]
          rw [hS _ (by simp [hT]) (by simp)]
          simp
        | false =>
          simp only [startup, new, init, hT, hD, hL, Bool.not_true, Bool.not_false,
            Bool.false_and, Bool.false_eq_true, if_false]
          rw [hS _ (by simp [hT]) (by simp)]
          simp

/-- After a wrap the offset equals `containerWidth`; the next unpaused tick
records `containerWidth - 1` exactly when `|containerWidth - 1| < contentWidth`,
and otherwise records `containerWidth` again. -/
theorem tick_after_wrap (containerWidth contentWidth : Int) :
    ((tick false 1 ⟨containerWidth, containerWidth, contentWidth⟩).currentScroll =
        containerWidth - 1 ↔ |containerWidth - 1| < contentWidth) ∧
    ((tick false 1 ⟨containerWidth, containerWidth, contentWidth⟩).currentScroll =
        containerWidth ↔ contentWidth ≤ |containerWidth - 1|) := by
  rw [tick_unpaused]
  by_cases h : contentWidth ≤ |containerWidth - 1|
  · simp only [h, if_true]
    constructor
    · constructor
      · intro h1; omega
      · intro h1; omega
    · simp
  · simp only [h, if_false]
    constructor
    · simp only [true_iff]; omega
    · simp only [iff_false]; omega

/-- On a page with a `#donor-ticker` and with reduced motion off, start-up
completes for every storage, and after any sequence of events whatsoever
`data-playing` is "true" exactly when the pause flag the interval callback
reads is false, and "false" exactly when it is true. -/
theorem data_playing_mirrors_pause_flag (page : Page) (store : Storage) (env : Env)
    (events : List Event) (hT : page.donorTicker = true) :
    ∃ s0 s, startup page store false env = .ok s0 ∧ run env s0 events = .ok s ∧
      (s.dataPlaying = some "true" ↔ s.isPaused = false) ∧
      (s.dataPlaying = some "false" ↔ s.isPaused = true) := by
  obtain ⟨s0, h0, h1, h2, _, h4, _⟩ := startup_ticker page store false env hT
  obtain ⟨s, hs, _, _, hm⟩ := run_total env
    (fun t => t.donorTicker = true ∧ t.domContentLoadedListener = false ∧
      t.dataPlaying = some (if t.isPaused then "false" else "true"))
    (fun t e ht => step_mirror env t e ht) events s0 ⟨h1, h2, h4 rfl⟩
  refine ⟨s0, s, h0, hs, ?_, ?_⟩ <;> (rw [hm]; cases s.isPaused <;> decide)

/-- The flag mirror on the sample page with a click, a hover and a focus. -/
theorem data_playing_mirrors_pause_flag_witness :
    ∃ s0 s, startup samplePage [] false sampleEnv = .ok s0 ∧
      run sampleEnv s0 [.click 90, .mouseenter, .mouseleave, .focusin, .timer, .focusout]
        = .ok s ∧
      (s.dataPlaying = some "true" ↔ s.isPaused = false) ∧
      (s.dataPlaying = some "false" ↔ s.isPaused = true) :=
  data_playing_mirrors_pause_flag samplePage [] sampleEnv
    [.click 90, .mouseenter, .mouseleave, .focusin, .timer, .focusout] rfl

end DonorScroll
